import Mathlib

/-!
Verification of the jetsonToESCControl firmware core: safety state machine,
event router, ESC throttle ramp controller, threshold detectors (battery,
temperature, current) and debounced button input.  Every definition is a
shallow embedding of the corresponding C++ function; floating point values
are modelled as rationals, fixed-width machine integers as Nat or Int with
explicit wrap where overflow can matter.
-/

/-- Active state of the safety state machine (one tag per MoaState subclass). -/
inductive MoaSMState
  | initState
  | idleState
  | surfingState
  | overHeatingState
  | overCurrentState
  | batteryLowState
deriving DecidableEq, Fintype

/-- Button identities, COMMAND_BUTTON_STOP .. COMMAND_BUTTON_100 (codes 1..5). -/
inductive ButtonId
  | stop
  | b25
  | b50
  | b75
  | b100
deriving DecidableEq, Fintype

/-- Numeric commandType of a button (COMMAND_BUTTON_STOP = 1 .. COMMAND_BUTTON_100 = 5). -/
def buttonCmdCode : ButtonId → Nat
  | .stop => 1
  | .b25 => 2
  | .b50 => 3
  | .b75 => 4
  | .b100 => 5

/-- Button sub-event carried in the value field (BUTTON_EVENT_PRESS = 1, LONG_PRESS = 2,
RELEASE = 3, VERY_LONG_PRESS = 4). -/
inductive ButtonEventType
  | press
  | longPress
  | release
  | veryLongPress
deriving DecidableEq, Fintype

/-- Temperature event codes (COMMAND_TEMP_CROSSED_ABOVE = 1, COMMAND_TEMP_CROSSED_BELOW = 2). -/
inductive TempCode
  | crossedAbove
  | crossedBelow
deriving DecidableEq, Fintype

/-- Numeric commandType of a temperature event. -/
def tempCmdCode : TempCode → Nat
  | .crossedAbove => 1
  | .crossedBelow => 2

/-- Battery event codes (COMMAND_BATT_LEVEL_HIGH = 1, MEDIUM = 2, LOW = 3). -/
inductive BattCode
  | levelHigh
  | levelMedium
  | levelLow
deriving DecidableEq, Fintype

/-- Numeric commandType of a battery event. -/
def battCmdCode : BattCode → Nat
  | .levelHigh => 1
  | .levelMedium => 2
  | .levelLow => 3

/-- Current event codes (COMMAND_CURRENT_OVERCURRENT = 1, NORMAL = 2,
REVERSE_OVERCURRENT = 3). -/
inductive CurrentCode
  | overcurrent
  | normal
  | reverseOvercurrent
deriving DecidableEq, Fintype

/-- Numeric commandType of a current event. -/
def currentCmdCode : CurrentCode → Nat
  | .overcurrent => 1
  | .normal => 2
  | .reverseOvercurrent => 3

/-- Timer identities (TIMER_ID_THROTTLE = 0, TIMER_ID_FULL_THROTTLE = 1). -/
inductive TimerId
  | throttle
  | fullThrottle
deriving DecidableEq, Fintype

/-- Shape of an incoming ControlCommand: controlType together with the
commandType code (and the button sub-event that states inspect), without the
measured value field. -/
inductive EventKey
  | timer (id : TimerId)
  | temp (c : TempCode)
  | batt (c : BattCode)
  | current (c : CurrentCode)
  | button (b : ButtonId) (v : ButtonEventType)
deriving DecidableEq, Fintype

/-- Timer durations and throttle percentages from Constants.h. -/
def ESC_25_TIME : Nat := 240000

/-- ESC_50_TIME from Constants.h. -/
def ESC_50_TIME : Nat := 180000

/-- ESC_75_TIME from Constants.h. -/
def ESC_75_TIME : Nat := 90000

/-- ESC_100_TIME from Constants.h. -/
def ESC_100_TIME : Nat := 15000

/-- ESC_75_TIME_100 from Constants.h. -/
def ESC_75_TIME_100 : Nat := 45000

/-- ESC_ECO_MODE throttle percentage. -/
def ESC_ECO_MODE : Nat := 25

/-- ESC_PADDLE_MODE throttle percentage. -/
def ESC_PADDLE_MODE : Nat := 50

/-- ESC_BREAKING_MODE throttle percentage. -/
def ESC_BREAKING_MODE : Nat := 75

/-- ESC_FULL_THROTTLE_MODE throttle percentage. -/
def ESC_FULL_THROTTLE_MODE : Nat := 100

/-- LOG_BTN_STOP_LONG code from MoaFlashLog.h. -/
def LOG_BTN_STOP_LONG : Nat := 2

/-- LOG_SYS_CONFIG_ENTER code from MoaFlashLog.h. -/
def LOG_SYS_CONFIG_ENTER : Nat := 3

/-- Truncation of an Int to int16 two's complement semantics
(static_cast to int16_t in C++). -/
def i16 (v : Int) : Int := (v + 32768) % 65536 - 32768

/-- Battery level shown on the LEDs (MoaBattLevel enum). -/
inductive MoaBattLevel
  | battLow
  | battMedium
  | battHigh
deriving DecidableEq, Fintype

/-- Primitive output commands issued through the MoaDevicesManager facade.
Each constructor corresponds to one facade method reaching a device. -/
inductive DevAction
  | stopMotor
  | setThrottleLevel (percent : Nat)
  | startTimer (id : TimerId) (durationMs : Nat)
  | stopTimer (id : TimerId)
  | showBoardLocked
  | showBoardUnlocked
  | waveAllLeds (fast : Bool)
  | refreshLedIndicators
  | enterConfigMode
  | showBatteryLevel (level : MoaBattLevel)
  | indicateOverheat (active : Bool)
  | indicateOvercurrent (active : Bool)
  | logSystem (code : Nat)
  | logButton (code : Nat)
  | logTemp (code : Nat) (value : Int)
  | logBatt (code : Nat) (value : Int)
  | logCurrent (code : Nat) (value : Int)
  | updateLog
deriving DecidableEq

/-- Utils.h escThrottleLevel: map button command to throttle percentage. -/
def escThrottleLevel : ButtonId → Nat
  | .b25 => ESC_ECO_MODE
  | .b50 => ESC_PADDLE_MODE
  | .b75 => ESC_BREAKING_MODE
  | .b100 => ESC_FULL_THROTTLE_MODE
  | _ => 0

/-- Utils.h escThrottleTimeout: map button command to throttle timeout. -/
def escThrottleTimeout : ButtonId → Nat
  | .b25 => ESC_25_TIME
  | .b50 => ESC_50_TIME
  | .b75 => ESC_75_TIME
  | .b100 => ESC_100_TIME
  | _ => 0

/-- MoaDevicesManager::disengageThrottle: stop both throttle timers, then the motor. -/
def MoaDevicesManager.disengageThrottle : List DevAction :=
  [DevAction.stopTimer TimerId.throttle, DevAction.stopTimer TimerId.fullThrottle, DevAction.stopMotor]

/-- MoaDevicesManager::engageThrottle: stop both timers, set the level, and start
the timer matching the requested mode. -/
def MoaDevicesManager.engageThrottle (commandType : ButtonId) : List DevAction :=
  [DevAction.stopTimer TimerId.throttle, DevAction.stopTimer TimerId.fullThrottle,
   DevAction.setThrottleLevel (escThrottleLevel commandType)] ++
  (if commandType = ButtonId.b100 then
    [DevAction.startTimer TimerId.fullThrottle ESC_100_TIME]
  else if escThrottleTimeout commandType > 0 then
    [DevAction.startTimer TimerId.throttle (escThrottleTimeout commandType)]
  else [])

/-- MoaDevicesManager::handleThrottleStepDown: step down to 75 percent and restart
the throttle timer. -/
def MoaDevicesManager.handleThrottleStepDown : List DevAction :=
  [DevAction.setThrottleLevel ESC_BREAKING_MODE, DevAction.startTimer TimerId.throttle ESC_75_TIME_100]

/-- InitState::onEnter body (never invoked by MoaStateMachine::setState). -/
def InitState.onEnter : List DevAction :=
  [DevAction.showBoardLocked, DevAction.waveAllLeds false, DevAction.refreshLedIndicators]

/-- IdleState::onEnter body (never invoked by MoaStateMachine::setState). -/
def IdleState.onEnter : List DevAction :=
  [DevAction.stopTimer TimerId.throttle, DevAction.stopMotor]

/-- BatteryLowState::onEnter body (never invoked by MoaStateMachine::setState). -/
def BatteryLowState.onEnter : List DevAction :=
  [DevAction.stopMotor, DevAction.showBatteryLevel MoaBattLevel.battLow, DevAction.refreshLedIndicators]

/-- OverCurrentState::onEnter body (never invoked by MoaStateMachine::setState). -/
def OverCurrentState.onEnter : List DevAction :=
  [DevAction.stopMotor, DevAction.indicateOvercurrent true, DevAction.refreshLedIndicators]

/-- OverHeatingState::onEnter body (never invoked by MoaStateMachine::setState). -/
def OverHeatingState.onEnter : List DevAction :=
  [DevAction.stopMotor, DevAction.indicateOverheat true, DevAction.refreshLedIndicators]

/-- InitState::buttonClick. -/
def InitState.buttonClick (b : ButtonId) (v : ButtonEventType) : MoaSMState × List DevAction :=
  if b = ButtonId.stop ∧ v = ButtonEventType.longPress then
    (MoaSMState.idleState,
     [DevAction.showBoardUnlocked, DevAction.waveAllLeds true, DevAction.refreshLedIndicators])
  else if b = ButtonId.stop ∧ v = ButtonEventType.veryLongPress then
    (MoaSMState.initState, [DevAction.enterConfigMode, DevAction.logSystem LOG_SYS_CONFIG_ENTER])
  else (MoaSMState.initState, [])

/-- IdleState::buttonClick.  Note: the sub-event value is never inspected, and the
STOP branch re-enters Idle (setState(getIdleState())) after stopping the motor. -/
def IdleState.buttonClick (b : ButtonId) (_v : ButtonEventType) : MoaSMState × List DevAction :=
  if b ≠ ButtonId.stop then
    let timeout : Nat :=
      match b with
      | .b25 => ESC_25_TIME
      | .b50 => ESC_50_TIME
      | .b75 => ESC_75_TIME
      | .b100 => ESC_100_TIME
      | _ => 0
    (MoaSMState.surfingState,
     [DevAction.setThrottleLevel ((buttonCmdCode b - 1) * 25)] ++
     (if timeout > 0 then [DevAction.startTimer TimerId.throttle timeout] else []))
  else
    (MoaSMState.idleState, [DevAction.stopMotor])

/-- SurfingState::buttonClick: ignores everything but PRESS sub-events. -/
def SurfingState.buttonClick (b : ButtonId) (v : ButtonEventType) : MoaSMState × List DevAction :=
  if v ≠ ButtonEventType.press then (MoaSMState.surfingState, [])
  else if b ≠ ButtonId.stop then
    (MoaSMState.surfingState, MoaDevicesManager.engageThrottle b)
  else
    (MoaSMState.idleState, MoaDevicesManager.disengageThrottle)

/-- SurfingState::overcurrentDetected. -/
def SurfingState.overcurrentDetected (c : CurrentCode) : MoaSMState × List DevAction :=
  match c with
  | .overcurrent => (MoaSMState.overCurrentState, MoaDevicesManager.disengageThrottle)
  | _ => (MoaSMState.surfingState, [])

/-- SurfingState::temperatureCrossedLimit. -/
def SurfingState.temperatureCrossedLimit (c : TempCode) : MoaSMState × List DevAction :=
  match c with
  | .crossedAbove => (MoaSMState.overHeatingState, MoaDevicesManager.disengageThrottle)
  | _ => (MoaSMState.surfingState, [])

/-- SurfingState::batteryLevelCrossedLimit: transitions to BatteryLow with no
device action of its own. -/
def SurfingState.batteryLevelCrossedLimit (c : BattCode) : MoaSMState × List DevAction :=
  match c with
  | .levelLow => (MoaSMState.batteryLowState, [])
  | _ => (MoaSMState.surfingState, [])

/-- SurfingState::timerExpired. -/
def SurfingState.timerExpired (id : TimerId) : MoaSMState × List DevAction :=
  match id with
  | .throttle => (MoaSMState.idleState, MoaDevicesManager.disengageThrottle)
  | .fullThrottle => (MoaSMState.surfingState, MoaDevicesManager.handleThrottleStepDown)

/-- OverHeatingState::buttonClick. -/
def OverHeatingState.buttonClick (b : ButtonId) (v : ButtonEventType) : MoaSMState × List DevAction :=
  if b = ButtonId.stop ∧ v = ButtonEventType.longPress then
    (MoaSMState.initState, [DevAction.stopMotor])
  else (MoaSMState.overHeatingState, [])

/-- OverHeatingState::overcurrentDetected. -/
def OverHeatingState.overcurrentDetected (c : CurrentCode) : MoaSMState × List DevAction :=
  match c with
  | .overcurrent => (MoaSMState.overCurrentState, [DevAction.stopMotor])
  | _ => (MoaSMState.overHeatingState, [])

/-- OverHeatingState::temperatureCrossedLimit. -/
def OverHeatingState.temperatureCrossedLimit (c : TempCode) : MoaSMState × List DevAction :=
  match c with
  | .crossedBelow => (MoaSMState.idleState, [DevAction.stopMotor])
  | _ => (MoaSMState.overHeatingState, [])

/-- OverHeatingState::batteryLevelCrossedLimit. -/
def OverHeatingState.batteryLevelCrossedLimit (c : BattCode) : MoaSMState × List DevAction :=
  match c with
  | .levelLow => (MoaSMState.batteryLowState, [DevAction.stopMotor])
  | _ => (MoaSMState.overHeatingState, [])

/-- OverCurrentState::buttonClick. -/
def OverCurrentState.buttonClick (b : ButtonId) (v : ButtonEventType) : MoaSMState × List DevAction :=
  if b = ButtonId.stop ∧ v = ButtonEventType.longPress then
    (MoaSMState.initState, [DevAction.stopMotor])
  else (MoaSMState.overCurrentState, [])

/-- OverCurrentState::overcurrentDetected: only a NORMAL event clears the state. -/
def OverCurrentState.overcurrentDetected (c : CurrentCode) : MoaSMState × List DevAction :=
  match c with
  | .normal => (MoaSMState.idleState, MoaDevicesManager.disengageThrottle)
  | _ => (MoaSMState.overCurrentState, [])

/-- OverCurrentState::temperatureCrossedLimit. -/
def OverCurrentState.temperatureCrossedLimit (c : TempCode) : MoaSMState × List DevAction :=
  match c with
  | .crossedAbove => (MoaSMState.overHeatingState, [DevAction.stopMotor])
  | _ => (MoaSMState.overCurrentState, [])

/-- OverCurrentState::batteryLevelCrossedLimit. -/
def OverCurrentState.batteryLevelCrossedLimit (c : BattCode) : MoaSMState × List DevAction :=
  match c with
  | .levelLow => (MoaSMState.batteryLowState, [DevAction.stopMotor])
  | _ => (MoaSMState.overCurrentState, [])

/-- BatteryLowState::buttonClick. -/
def BatteryLowState.buttonClick (b : ButtonId) (v : ButtonEventType) : MoaSMState × List DevAction :=
  if b = ButtonId.stop ∧ v = ButtonEventType.longPress then
    (MoaSMState.initState, [DevAction.stopMotor])
  else (MoaSMState.batteryLowState, [])

/-- BatteryLowState::overcurrentDetected. -/
def BatteryLowState.overcurrentDetected (c : CurrentCode) : MoaSMState × List DevAction :=
  match c with
  | .overcurrent => (MoaSMState.overCurrentState, [DevAction.stopMotor])
  | _ => (MoaSMState.batteryLowState, [])

/-- BatteryLowState::temperatureCrossedLimit. -/
def BatteryLowState.temperatureCrossedLimit (c : TempCode) : MoaSMState × List DevAction :=
  match c with
  | .crossedAbove => (MoaSMState.overHeatingState, [DevAction.stopMotor])
  | _ => (MoaSMState.batteryLowState, [])

/-- BatteryLowState::batteryLevelCrossedLimit: MEDIUM or HIGH recovers to Idle. -/
def BatteryLowState.batteryLevelCrossedLimit (c : BattCode) : MoaSMState × List DevAction :=
  match c with
  | .levelMedium => (MoaSMState.idleState, [DevAction.stopMotor])
  | .levelHigh => (MoaSMState.idleState, [DevAction.stopMotor])
  | _ => (MoaSMState.batteryLowState, [])

/-- MoaStateMachine::buttonClick dispatch on the active state. -/
def MoaStateMachine.buttonClick (s : MoaSMState) (b : ButtonId) (v : ButtonEventType) :
    MoaSMState × List DevAction :=
  match s with
  | .initState => InitState.buttonClick b v
  | .idleState => IdleState.buttonClick b v
  | .surfingState => SurfingState.buttonClick b v
  | .overHeatingState => OverHeatingState.buttonClick b v
  | .overCurrentState => OverCurrentState.buttonClick b v
  | .batteryLowState => BatteryLowState.buttonClick b v

/-- MoaStateMachine::overcurrentDetected dispatch on the active state.
InitState and IdleState only log. -/
def MoaStateMachine.overcurrentDetected (s : MoaSMState) (c : CurrentCode) :
    MoaSMState × List DevAction :=
  match s with
  | .initState => (MoaSMState.initState, [])
  | .idleState => (MoaSMState.idleState, [])
  | .surfingState => SurfingState.overcurrentDetected c
  | .overHeatingState => OverHeatingState.overcurrentDetected c
  | .overCurrentState => OverCurrentState.overcurrentDetected c
  | .batteryLowState => BatteryLowState.overcurrentDetected c

/-- MoaStateMachine::temperatureCrossedLimit dispatch on the active state. -/
def MoaStateMachine.temperatureCrossedLimit (s : MoaSMState) (c : TempCode) :
    MoaSMState × List DevAction :=
  match s with
  | .initState => (MoaSMState.initState, [])
  | .idleState => (MoaSMState.idleState, [])
  | .surfingState => SurfingState.temperatureCrossedLimit c
  | .overHeatingState => OverHeatingState.temperatureCrossedLimit c
  | .overCurrentState => OverCurrentState.temperatureCrossedLimit c
  | .batteryLowState => BatteryLowState.temperatureCrossedLimit c

/-- MoaStateMachine::batteryLevelCrossedLimit dispatch on the active state. -/
def MoaStateMachine.batteryLevelCrossedLimit (s : MoaSMState) (c : BattCode) :
    MoaSMState × List DevAction :=
  match s with
  | .initState => (MoaSMState.initState, [])
  | .idleState => (MoaSMState.idleState, [])
  | .surfingState => SurfingState.batteryLevelCrossedLimit c
  | .overHeatingState => OverHeatingState.batteryLevelCrossedLimit c
  | .overCurrentState => OverCurrentState.batteryLevelCrossedLimit c
  | .batteryLowState => BatteryLowState.batteryLevelCrossedLimit c

/-- MoaStateMachine::timerExpired dispatch on the active state.  Only
SurfingState reacts to timers. -/
def MoaStateMachine.timerExpired (s : MoaSMState) (id : TimerId) :
    MoaSMState × List DevAction :=
  match s with
  | .surfingState => SurfingState.timerExpired id
  | _ => (s, [])

/-- Routing of one event key to the matching MoaStateMachine method,
without the router bookkeeping of MoaStateMachineManager. -/
def MoaStateMachine.handle (s : MoaSMState) (k : EventKey) : MoaSMState × List DevAction :=
  match k with
  | .timer id => MoaStateMachine.timerExpired s id
  | .temp c => MoaStateMachine.temperatureCrossedLimit s c
  | .batt c => MoaStateMachine.batteryLevelCrossedLimit s c
  | .current c => MoaStateMachine.overcurrentDetected s c
  | .button b v => MoaStateMachine.buttonClick s b v

/-- Battery LED level selected by MoaStateMachineManager::handleBatteryEvent
from the event commandType (1 = HIGH, 2 = MEDIUM, 3 and default = LOW). -/
def managerBattLevel (c : BattCode) : MoaBattLevel :=
  match c with
  | .levelHigh => MoaBattLevel.battHigh
  | .levelMedium => MoaBattLevel.battMedium
  | .levelLow => MoaBattLevel.battLow

/-- MoaStateMachineManager::handleEvent: per-category bookkeeping (log record,
indicator update) followed by the state machine dispatch and the flash log
flush check.  Note that handleCurrentEvent tests commandType against 2 and 3
(the comment claims 1 = NORMAL), although COMMAND_CURRENT_OVERCURRENT = 1. -/
def MoaStateMachineManager.handleEvent (s : MoaSMState) (k : EventKey) (value : Int) :
    MoaSMState × List DevAction :=
  let routed : MoaSMState × List DevAction :=
    match k with
    | .timer id => MoaStateMachine.timerExpired s id
    | .temp c =>
        let r := MoaStateMachine.temperatureCrossedLimit s c
        (r.1, [DevAction.logTemp (tempCmdCode c) (i16 value),
               DevAction.indicateOverheat (tempCmdCode c = 1)] ++ r.2)
    | .batt c =>
        let r := MoaStateMachine.batteryLevelCrossedLimit s c
        (r.1, [DevAction.logBatt (battCmdCode c) (i16 value),
               DevAction.showBatteryLevel (managerBattLevel c)] ++ r.2)
    | .current c =>
        let r := MoaStateMachine.overcurrentDetected s c
        (r.1, [DevAction.logCurrent (currentCmdCode c) (i16 value),
               DevAction.indicateOvercurrent
                 (currentCmdCode c = 2 ∨ currentCmdCode c = 3)] ++ r.2)
    | .button b v =>
        let r := MoaStateMachine.buttonClick s b v
        (r.1, [DevAction.logButton
                 (if v = ButtonEventType.longPress then LOG_BTN_STOP_LONG
                  else buttonCmdCode b)] ++ r.2)
  (routed.1, routed.2 ++ [DevAction.updateLog])

/-- ESC_PWM_FREQUENCY from Constants.h. -/
def ESC_PWM_FREQUENCY : Nat := 50

/-- ESC_PULSE_MIN_US from Constants.h. -/
def ESC_PULSE_MIN_US : Nat := 1000

/-- ESC_PULSE_MAX_US from Constants.h. -/
def ESC_PULSE_MAX_US : Nat := 2000

/-- TASK_IO_PERIOD_MS from Constants.h. -/
def TASK_IO_PERIOD_MS : Nat := 20

/-- ESC_RAMP_RATE from Constants.h (percent per second, a float in the source). -/
def ESC_RAMP_RATE : ℚ := 200

/-- PWM period in microseconds computed in the ESCController constructor. -/
def escPeriodUs : Nat := 1000000 / ESC_PWM_FREQUENCY

/-- Maximum duty value for the 10-bit resolution set in the constructor. -/
def escMaxDuty : Nat := 2 ^ 10 - 1

/-- Duty value of the minimum (motor off / arm) pulse width. -/
def escMinThrottle : Nat := ESC_PULSE_MIN_US * escMaxDuty / escPeriodUs

/-- Duty value of the maximum pulse width. -/
def escMaxThrottle : Nat := ESC_PULSE_MAX_US * escMaxDuty / escPeriodUs

/-- Wrap of an Int into uint16 range, as C++ conversion to uint16_t. -/
def u16 (x : Int) : Nat := (x % 65536).toNat

/-- Mutable fields of ESCController (duty values are uint16, rampStep int16). -/
structure ESCState where
  throttle : Nat
  currentThrottle : Nat
  targetThrottle : Nat
  rampTime : Nat
  rampStep : Int
  ramping : Bool
  rampRate : ℚ
  tickPeriodMs : Nat
deriving DecidableEq

/-- ESCController constructor state (pin, channel and frequency aside). -/
def escInitial : ESCState :=
  { throttle := escMinThrottle
    currentThrottle := escMinThrottle
    targetThrottle := escMinThrottle
    rampTime := 10
    rampStep := 1
    ramping := false
    rampRate := ESC_RAMP_RATE
    tickPeriodMs := TASK_IO_PERIOD_MS }

/-- ESCController::setThrottle: clamp to the duty bounds, apply immediately and
write the duty out. -/
def ESCController.setThrottle (s : ESCState) (throttle : Nat) : ESCState :=
  let th :=
    if throttle < escMinThrottle then escMinThrottle
    else if throttle > escMaxThrottle then escMaxThrottle
    else throttle
  { s with throttle := th, currentThrottle := th }

/-- ESCController::stop: clear the ramping flag and snap to the minimum duty. -/
def ESCController.stop (s : ESCState) : ESCState :=
  ESCController.setThrottle { s with ramping := false } escMinThrottle

/-- ESCController::updateThrottle: one ramp tick.  The addition of the int16
step to the uint16 current value wraps modulo 2^16 before the comparison
against the target, exactly as the C++ integer conversions do. -/
def ESCController.updateThrottle (s : ESCState) : ESCState :=
  if s.ramping = false then s
  else if 0 < s.rampStep then
    let c := u16 ((s.currentThrottle : Int) + s.rampStep)
    if s.targetThrottle ≤ c then
      { s with currentThrottle := s.targetThrottle, ramping := false,
               throttle := s.targetThrottle }
    else
      { s with currentThrottle := c, throttle := c }
  else if s.rampStep < 0 then
    let c := u16 ((s.currentThrottle : Int) + s.rampStep)
    if c ≤ s.targetThrottle then
      { s with currentThrottle := s.targetThrottle, ramping := false,
               throttle := s.targetThrottle }
    else
      { s with currentThrottle := c, throttle := c }
  else
    { s with currentThrottle := s.targetThrottle, ramping := false,
             throttle := s.targetThrottle }

/-- ESCController::setRampThrottle: clamp the target to the maximum duty,
compute the per-tick step by truncating division (int16 cast included) with
a minimum magnitude of one, and begin ramping. -/
def ESCController.setRampThrottle (s : ESCState) (rampTime targetThrottle : Nat) : ESCState :=
  let tgt := if targetThrottle > escMaxThrottle then escMaxThrottle else targetThrottle
  if tgt = s.currentThrottle then
    { s with targetThrottle := tgt, ramping := false }
  else
    let rt := if rampTime > 0 then rampTime else 1
    let step := i16 (Int.tdiv ((tgt : Int) - (s.currentThrottle : Int)) (rt : Int))
    let step2 := if step = 0 then (if (s.currentThrottle : Int) < (tgt : Int) then 1 else -1) else step
    { s with targetThrottle := tgt, rampTime := rt, rampStep := step2, ramping := true }

/-- ESCController::setThrottlePercent: clamp the percentage, map it linearly
onto the duty range, derive the number of ramp steps from the ramp rate and
tick period (the float arithmetic is carried out in rationals, the cast of the
result to uint16 truncates), and configure the ramp. -/
def ESCController.setThrottlePercent (s : ESCState) (percent0 : Nat) : ESCState :=
  let percent := if percent0 > 100 then 100 else percent0
  let range := escMaxThrottle - escMinThrottle
  let targetDuty := escMinThrottle + percent * range / 100
  let currentPercent : ℚ :=
    ((u16 ((s.currentThrottle : Int) - (escMinThrottle : Int)) : ℚ) * 100) / (range : ℚ)
  let deltaPercent : ℚ := |(percent : ℚ) - currentPercent|
  let rampSteps := Nat.floor (deltaPercent * 1000 / (s.rampRate * (s.tickPeriodMs : ℚ)))
  let rampSteps2 := if rampSteps < 1 then 1 else rampSteps
  ESCController.setRampThrottle s rampSteps2 targetDuty

/-- States of the ESC controller reachable by any interleaving of
setThrottlePercent calls, ramp ticks and emergency stops. -/
inductive EscReachable : ESCState → Prop
  | start : EscReachable escInitial
  | setPercent (s : ESCState) (p : Nat) (h : EscReachable s) :
      EscReachable (ESCController.setThrottlePercent s p)
  | tick (s : ESCState) (h : EscReachable s) : EscReachable (ESCController.updateThrottle s)
  | stop (s : ESCState) (h : EscReachable s) : EscReachable (ESCController.stop s)

/-- Invariant carried by every reachable ESC state: all duty values stay within
the pulse-width bounds, and while ramping the step is directed at the target
with magnitude at most the width of the duty range. -/
def escInv (s : ESCState) : Prop :=
  escMinThrottle ≤ s.throttle ∧ s.throttle ≤ escMaxThrottle ∧
  escMinThrottle ≤ s.currentThrottle ∧ s.currentThrottle ≤ escMaxThrottle ∧
  escMinThrottle ≤ s.targetThrottle ∧ s.targetThrottle ≤ escMaxThrottle ∧
  (s.ramping = true →
    (0 < s.rampStep → s.currentThrottle < s.targetThrottle) ∧
    (s.rampStep < 0 → s.targetThrottle < s.currentThrottle) ∧
    s.rampStep ≠ 0 ∧ -51 ≤ s.rampStep ∧ s.rampStep ≤ 51)

/-- Truncation of a rational toward zero, as a C++ static_cast from float to a
signed integer type. -/
def cTrunc (q : ℚ) : Int := if 0 ≤ q then ⌊q⌋ else ⌈q⌉

/-- Mutable fields of MoaBattControl; float values are rationals, the sample
buffer is a list of fixed length numSamples. -/
structure BattState where
  lowThreshold : ℚ
  highThreshold : ℚ
  hysteresis : ℚ
  dividerRatio : ℚ
  referenceVoltage : ℚ
  adcResolution : Nat
  rawAdc : Nat
  currentVoltage : ℚ
  level : MoaBattLevel
  samples : List ℚ
  numSamples : Nat
  sampleIndex : Nat
  sampleCount : Nat
  averagedVoltage : ℚ
deriving DecidableEq

/-- MoaBattControl::calculateAverage: mean of the first sampleCount slots. -/
def MoaBattControl.calculateAverage (s : BattState) : ℚ :=
  if s.sampleCount = 0 then 0
  else ((s.samples.take s.sampleCount).sum) / (s.sampleCount : ℚ)

/-- MoaBattControl::addSample: write the slot at sampleIndex, advance the index
modulo numSamples, saturate sampleCount at numSamples and recompute the
cached average. -/
def MoaBattControl.addSample (s : BattState) (voltage : ℚ) : BattState :=
  let s1 := { s with samples := s.samples.set s.sampleIndex voltage,
                     sampleIndex := (s.sampleIndex + 1) % s.numSamples,
                     sampleCount := if s.sampleCount < s.numSamples then s.sampleCount + 1
                                    else s.sampleCount }
  { s1 with averagedVoltage := MoaBattControl.calculateAverage s1 }

/-- MoaBattControl::isAveragingReady. -/
def MoaBattControl.isAveragingReady (s : BattState) : Bool :=
  s.numSamples ≤ s.sampleCount

/-- MoaBattControl::adcToVoltage: linear conversion through the ADC reference
and the voltage divider ratio. -/
def MoaBattControl.adcToVoltage (s : BattState) (rawAdc : Nat) : ℚ :=
  ((rawAdc : ℚ) / ((2 ^ s.adcResolution - 1 : Nat) : ℚ)) * s.referenceVoltage * s.dividerRatio

/-- Battery zone-change event pushed by MoaBattControl::pushBattEvent. -/
structure BattEvent where
  commandType : Nat
  value : Int
deriving DecidableEq

/-- MoaBattControl::setNumSamples: clamp to 1..MOA_BATT_MAX_SAMPLES and reset
the buffer. -/
def MoaBattControl.setNumSamples (s : BattState) (numSamples : Nat) : BattState :=
  let n := if numSamples < 1 then 1 else if numSamples > 32 then 32 else numSamples
  { s with numSamples := n, samples := List.replicate n 0,
           sampleIndex := 0, sampleCount := 0, averagedVoltage := 0 }

/-- MoaBattControl constructor state for a given sample count (member
initializer list followed by setNumSamples). -/
def MoaBattControl.construct (numSamples : Nat) : BattState :=
  MoaBattControl.setNumSamples
    { lowThreshold := 33/10, highThreshold := 4, hysteresis := 1/10,
      dividerRatio := 1, referenceVoltage := 33/10, adcResolution := 12,
      rawAdc := 0, currentVoltage := 0, level := MoaBattLevel.battMedium,
      samples := [], numSamples := 0, sampleIndex := 0, sampleCount := 0,
      averagedVoltage := 0 } numSamples

/-- MoaBattControl::update: convert the ADC reading, insert the sample, and
once averaging is ready evaluate the hysteresis zone logic, pushing one event
exactly when the level changed. -/
def MoaBattControl.update (s : BattState) (rawAdc : Nat) : BattState × Option BattEvent :=
  let v := MoaBattControl.adcToVoltage s rawAdc
  let s1 := MoaBattControl.addSample { s with rawAdc := rawAdc, currentVoltage := v } v
  if MoaBattControl.isAveragingReady s1 = false then (s1, none)
  else
    let lowThreshUp := s1.lowThreshold + s1.hysteresis
    let lowThreshDown := s1.lowThreshold
    let highThreshUp := s1.highThreshold
    let highThreshDown := s1.highThreshold - s1.hysteresis
    let newLevel :=
      match s1.level with
      | .battLow =>
          if lowThreshUp ≤ s1.averagedVoltage then MoaBattLevel.battMedium else s1.level
      | .battMedium =>
          if s1.averagedVoltage ≤ lowThreshDown then MoaBattLevel.battLow
          else if highThreshUp ≤ s1.averagedVoltage then MoaBattLevel.battHigh
          else s1.level
      | .battHigh =>
          if s1.averagedVoltage ≤ highThreshDown then MoaBattLevel.battMedium else s1.level
    let s2 := { s1 with level := newLevel }
    if newLevel ≠ s1.level then
      (s2, some { commandType :=
                    match newLevel with
                    | .battLow => 3
                    | .battMedium => 2
                    | .battHigh => 1,
                  value := cTrunc (s2.averagedVoltage * 1000) })
    else (s2, none)

/-- Iterated MoaBattControl::update over a list of raw ADC readings, collecting
the pushed events in order. -/
def MoaBattControl.run (s : BattState) (xs : List Nat) : BattState × List BattEvent :=
  match xs with
  | [] => (s, [])
  | x :: rest =>
      let r := MoaBattControl.update s x
      let r2 := MoaBattControl.run r.1 rest
      (r2.1, (match r.2 with | some e => [e] | none => []) ++ r2.2)

/-- Trace of the cached averaged voltage after each update call. -/
def MoaBattControl.avgTrace (s : BattState) (xs : List Nat) : List ℚ :=
  match xs with
  | [] => []
  | x :: rest =>
      let r := MoaBattControl.update s x
      r.1.averagedVoltage :: MoaBattControl.avgTrace r.1 rest

/-- Temperature detector state enum (MoaTempState). -/
inductive MoaTempState
  | belowTarget
  | aboveTarget
deriving DecidableEq, Fintype

/-- Mutable fields of MoaTempControl. -/
structure TempState where
  targetTemp : ℚ
  hysteresis : ℚ
  currentTemp : ℚ
  state : MoaTempState
  samples : List ℚ
  numSamples : Nat
  sampleIndex : Nat
  sampleCount : Nat
  averagedTemp : ℚ
deriving DecidableEq

/-- MoaTempControl::calculateAverage. -/
def MoaTempControl.calculateAverage (s : TempState) : ℚ :=
  if s.sampleCount = 0 then 0
  else ((s.samples.take s.sampleCount).sum) / (s.sampleCount : ℚ)

/-- MoaTempControl::addSample. -/
def MoaTempControl.addSample (s : TempState) (temp : ℚ) : TempState :=
  let s1 := { s with samples := s.samples.set s.sampleIndex temp,
                     sampleIndex := (s.sampleIndex + 1) % s.numSamples,
                     sampleCount := if s.sampleCount < s.numSamples then s.sampleCount + 1
                                    else s.sampleCount }
  { s1 with averagedTemp := MoaTempControl.calculateAverage s1 }

/-- MoaTempControl::isAveragingReady. -/
def MoaTempControl.isAveragingReady (s : TempState) : Bool :=
  s.numSamples ≤ s.sampleCount

/-- DEVICE_DISCONNECTED_C sentinel of the DallasTemperature library. -/
def DEVICE_DISCONNECTED_C : ℚ := -127

/-- Temperature zone-change event pushed by MoaTempControl::pushTempEvent. -/
structure TempEvent where
  commandType : Nat
  value : Int
deriving DecidableEq

/-- MoaTempControl::update: read one temperature, skip the disconnected
sentinel, insert the sample, and once averaging is ready run the two-zone
hysteresis logic (up at the target, down at target minus hysteresis). -/
def MoaTempControl.update (s : TempState) (reading : ℚ) : TempState × Option TempEvent :=
  if reading = DEVICE_DISCONNECTED_C then (s, none)
  else
    let s1 := MoaTempControl.addSample { s with currentTemp := reading } reading
    if MoaTempControl.isAveragingReady s1 = false then (s1, none)
    else
      let upperThreshold := s1.targetTemp
      let lowerThreshold := s1.targetTemp - s1.hysteresis
      if s1.state = MoaTempState.belowTarget ∧ upperThreshold ≤ s1.averagedTemp then
        ({ s1 with state := MoaTempState.aboveTarget },
         some { commandType := 1, value := cTrunc (s1.averagedTemp * 10) })
      else if s1.state = MoaTempState.aboveTarget ∧ s1.averagedTemp ≤ lowerThreshold then
        ({ s1 with state := MoaTempState.belowTarget },
         some { commandType := 2, value := cTrunc (s1.averagedTemp * 10) })
      else (s1, none)

/-- Iterated MoaTempControl::update. -/
def MoaTempControl.run (s : TempState) (xs : List ℚ) : TempState × List TempEvent :=
  match xs with
  | [] => (s, [])
  | x :: rest =>
      let r := MoaTempControl.update s x
      let r2 := MoaTempControl.run r.1 rest
      (r2.1, (match r.2 with | some e => [e] | none => []) ++ r2.2)

/-- Trace of the cached averaged temperature after each update call that
accepted its reading (the disconnected sentinel adds no sample). -/
def MoaTempControl.avgTrace (s : TempState) (xs : List ℚ) : List ℚ :=
  match xs with
  | [] => []
  | x :: rest =>
      let r := MoaTempControl.update s x
      r.1.averagedTemp :: MoaTempControl.avgTrace r.1 rest

/-- Current detector state enum (MoaCurrentState). -/
inductive MoaCurrentState
  | normal
  | overcurrent
  | reverseOvercurrent
deriving DecidableEq, Fintype

/-- Mutable fields of MoaCurrentControl. -/
structure CurrentState where
  sensitivity : ℚ
  zeroOffset : ℚ
  referenceVoltage : ℚ
  adcResolution : Nat
  overcurrentThreshold : ℚ
  reverseOvercurrentThreshold : ℚ
  hysteresis : ℚ
  rawAdc : Nat
  adcVoltage : ℚ
  currentReading : ℚ
  state : MoaCurrentState
  samples : List ℚ
  numSamples : Nat
  sampleIndex : Nat
  sampleCount : Nat
  averagedCurrent : ℚ
deriving DecidableEq

/-- MoaCurrentControl::calculateAverage. -/
def MoaCurrentControl.calculateAverage (s : CurrentState) : ℚ :=
  if s.sampleCount = 0 then 0
  else ((s.samples.take s.sampleCount).sum) / (s.sampleCount : ℚ)

/-- MoaCurrentControl::addSample. -/
def MoaCurrentControl.addSample (s : CurrentState) (current : ℚ) : CurrentState :=
  let s1 := { s with samples := s.samples.set s.sampleIndex current,
                     sampleIndex := (s.sampleIndex + 1) % s.numSamples,
                     sampleCount := if s.sampleCount < s.numSamples then s.sampleCount + 1
                                    else s.sampleCount }
  { s1 with averagedCurrent := MoaCurrentControl.calculateAverage s1 }

/-- MoaCurrentControl::isAveragingReady. -/
def MoaCurrentControl.isAveragingReady (s : CurrentState) : Bool :=
  s.numSamples ≤ s.sampleCount

/-- MoaCurrentControl::adcToCurrent conversion (the adcVoltage member update is
part of the returned state in update). -/
def MoaCurrentControl.adcToCurrent (s : CurrentState) (rawAdc : Nat) : ℚ :=
  ((((rawAdc : ℚ) / ((2 ^ s.adcResolution - 1 : Nat) : ℚ)) * s.referenceVoltage) - s.zeroOffset)
    / s.sensitivity

/-- Current zone-change event pushed by MoaCurrentControl::pushCurrentEvent. -/
structure CurrentEvent where
  commandType : Nat
  value : Int
deriving DecidableEq

/-- MoaCurrentControl::update: convert the ADC reading, insert the sample, and
once averaging is ready run the three-zone hysteresis logic (overcurrent edge
at the threshold going up, threshold minus hysteresis going down; reverse edge
mirrored). -/
def MoaCurrentControl.update (s : CurrentState) (rawAdc : Nat) : CurrentState × Option CurrentEvent :=
  let adcV := ((rawAdc : ℚ) / ((2 ^ s.adcResolution - 1 : Nat) : ℚ)) * s.referenceVoltage
  let reading := (adcV - s.zeroOffset) / s.sensitivity
  let s1 := MoaCurrentControl.addSample
    { s with rawAdc := rawAdc, adcVoltage := adcV, currentReading := reading } reading
  if MoaCurrentControl.isAveragingReady s1 = false then (s1, none)
  else
    let overcurrentUp := s1.overcurrentThreshold
    let overcurrentDown := s1.overcurrentThreshold - s1.hysteresis
    let reverseUp := s1.reverseOvercurrentThreshold + s1.hysteresis
    let reverseDown := s1.reverseOvercurrentThreshold
    let newState :=
      match s1.state with
      | .normal =>
          if overcurrentUp ≤ s1.averagedCurrent then MoaCurrentState.overcurrent
          else if s1.averagedCurrent ≤ reverseDown then MoaCurrentState.reverseOvercurrent
          else s1.state
      | .overcurrent =>
          if s1.averagedCurrent ≤ overcurrentDown then MoaCurrentState.normal else s1.state
      | .reverseOvercurrent =>
          if reverseUp ≤ s1.averagedCurrent then MoaCurrentState.normal else s1.state
    let s2 := { s1 with state := newState }
    if newState ≠ s1.state then
      (s2, some { commandType :=
                    match newState with
                    | .normal => 2
                    | .overcurrent => 1
                    | .reverseOvercurrent => 3,
                  value := cTrunc (s2.averagedCurrent * 10) })
    else (s2, none)

/-- Iterated MoaCurrentControl::update. -/
def MoaCurrentControl.run (s : CurrentState) (xs : List Nat) : CurrentState × List CurrentEvent :=
  match xs with
  | [] => (s, [])
  | x :: rest =>
      let r := MoaCurrentControl.update s x
      let r2 := MoaCurrentControl.run r.1 rest
      (r2.1, (match r.2 with | some e => [e] | none => []) ++ r2.2)

/-- Trace of the cached averaged current after each update call. -/
def MoaCurrentControl.avgTrace (s : CurrentState) (xs : List Nat) : List ℚ :=
  match xs with
  | [] => []
  | x :: rest =>
      let r := MoaCurrentControl.update s x
      r.1.averagedCurrent :: MoaCurrentControl.avgTrace r.1 rest

/-- MOA_BUTTON_DEFAULT_VERY_LONG_PRESS_MS from MoaButtonControl.h. -/
def MOA_BUTTON_DEFAULT_VERY_LONG_PRESS_MS : Nat := 10000

/-- Subtraction of uint32 timestamps with two's complement wrap, as the C++
expression now - before on uint32_t values. -/
def u32sub (a b : Nat) : Nat := (a + 4294967296 - b) % 4294967296

/-- Per-button tracking state of MoaButtonControl (ButtonState struct; the
veryLongPressFired field declared in the header is never touched by the
implementation and is omitted). -/
structure BtnState where
  lastChangeTime : Nat
  pressStartTime : Nat
  isPressed : Bool
  longPressFired : Bool
deriving DecidableEq

/-- Timing configuration of MoaButtonControl relevant to one button. -/
structure BtnCfg where
  debounceMs : Nat
  longPressMs : Nat
  longPressEnabled : Bool
deriving DecidableEq

/-- Constructor state of one ButtonState entry. -/
def btnInitial : BtnState :=
  { lastChangeTime := 0, pressStartTime := 0, isPressed := false, longPressFired := false }

/-- MoaButtonControl::processButton for a single button in polled mode: accept
a debounced edge (emitting PRESS on a press edge and resetting the long-press
flag), or fire LONG_PRESS at most once while held. -/
def MoaButtonControl.processButton (cfg : BtnCfg) (b : BtnState) (isPressed : Bool) (now : Nat) :
    BtnState × List ButtonEventType :=
  if isPressed ≠ b.isPressed then
    if cfg.debounceMs ≤ u32sub now b.lastChangeTime then
      if isPressed then
        ({ b with lastChangeTime := now, isPressed := isPressed,
                  pressStartTime := now, longPressFired := false },
         [ButtonEventType.press])
      else
        ({ b with lastChangeTime := now, isPressed := isPressed }, [])
    else (b, [])
  else
    if b.isPressed ∧ cfg.longPressEnabled ∧ b.longPressFired = false then
      if cfg.longPressMs ≤ u32sub now b.pressStartTime then
        ({ b with longPressFired := true }, [ButtonEventType.longPress])
      else (b, [])
    else (b, [])

/-- MoaButtonControl::checkLongPress for a single button: fire LONG_PRESS at
most once while the button is held, when long-press detection is enabled. -/
def MoaButtonControl.checkLongPress (cfg : BtnCfg) (b : BtnState) (now : Nat) :
    BtnState × List ButtonEventType :=
  if cfg.longPressEnabled = false then (b, [])
  else if b.isPressed ∧ b.longPressFired = false then
    if cfg.longPressMs ≤ u32sub now b.pressStartTime then
      ({ b with longPressFired := true }, [ButtonEventType.longPress])
    else (b, [])
  else (b, [])

/-- MoaButtonControl::processInterrupt for a single button: any observed level
difference is accepted as a real change once outside the debounce window
(processButtonFromInterrupt), emitting PRESS on a press edge. -/
def MoaButtonControl.processInterrupt (cfg : BtnCfg) (b : BtnState) (currentPressed : Bool)
    (now : Nat) : BtnState × List ButtonEventType :=
  if currentPressed ≠ b.isPressed then
    if cfg.debounceMs ≤ u32sub now b.lastChangeTime then
      if currentPressed then
        ({ b with lastChangeTime := now, isPressed := currentPressed,
                  pressStartTime := now, longPressFired := false },
         [ButtonEventType.press])
      else
        ({ b with lastChangeTime := now, isPressed := currentPressed }, [])
    else (b, [])
  else (b, [])

/-- One scheduled call into the button component for a single button: a polled
update tick, a long-press check from IOTask, or an interrupt drain. -/
inductive BtnStep
  | poll (raw : Bool) (now : Nat)
  | checkLP (now : Nat)
  | intr (raw : Bool) (now : Nat)
deriving DecidableEq

/-- Dispatch of one scheduled call. -/
def MoaButtonControl.step (cfg : BtnCfg) (b : BtnState) :
    BtnStep → BtnState × List ButtonEventType
  | .poll raw now => MoaButtonControl.processButton cfg b raw now
  | .checkLP now => MoaButtonControl.checkLongPress cfg b now
  | .intr raw now => MoaButtonControl.processInterrupt cfg b raw now

/-- Iterated scheduled calls, collecting emitted button events in order. -/
def MoaButtonControl.runSteps (cfg : BtnCfg) (b : BtnState) (steps : List BtnStep) :
    BtnState × List ButtonEventType :=
  match steps with
  | [] => (b, [])
  | st :: rest =>
      let r := MoaButtonControl.step cfg b st
      let r2 := MoaButtonControl.runSteps cfg r.1 rest
      (r2.1, r.2 ++ r2.2)

/-- Time stamp of a scheduled call. -/
def BtnStep.time : BtnStep → Nat
  | .poll _ now => now
  | .checkLP now => now
  | .intr _ now => now

/-- Raw pressed level a scheduled call observes (a long-press check reads no
level; taking the held level keeps the held-button hypothesis uniform). -/
def BtnStep.held : BtnStep → Bool
  | .poll raw _ => raw
  | .checkLP _ => true
  | .intr raw _ => raw

/-- Transition table of specification section 4.5, read off the table rows:
true exactly for the (state, event) pairs given an entry there. -/
def specListed (s : MoaSMState) (k : EventKey) : Bool :=
  match s, k with
  | .initState, .button .stop .longPress => true
  | .initState, .button .stop .veryLongPress => true
  | .idleState, .button .stop .longPress => true
  | .idleState, .button b .press => decide (b ≠ ButtonId.stop)
  | .surfingState, .button .stop .longPress => true
  | .surfingState, .button b .press => decide (b ≠ ButtonId.stop)
  | .surfingState, .current .overcurrent => true
  | .surfingState, .temp .crossedAbove => true
  | .surfingState, .batt .levelLow => true
  | .surfingState, .timer _ => true
  | .overHeatingState, .button .stop .longPress => true
  | .overHeatingState, .current .overcurrent => true
  | .overHeatingState, .batt .levelLow => true
  | .overHeatingState, .temp .crossedBelow => true
  | .overCurrentState, .button .stop .longPress => true
  | .overCurrentState, .temp .crossedAbove => true
  | .overCurrentState, .batt .levelLow => true
  | .overCurrentState, .current .normal => true
  | .batteryLowState, .button .stop .longPress => true
  | .batteryLowState, .current .overcurrent => true
  | .batteryLowState, .temp .crossedAbove => true
  | .batteryLowState, .batt .levelMedium => true
  | .batteryLowState, .batt .levelHigh => true
  | _, _ => false

/-- Pairs absent from the specification table on which the code nevertheless
acts: in Idle every STOP sub-event stops the motor and every sub-event of a
throttle button engages, and in Surfing a STOP press disengages to Idle. -/
def extraHandled (s : MoaSMState) (k : EventKey) : Bool :=
  match s, k with
  | .idleState, .button .stop v => decide (v ≠ ButtonEventType.longPress)
  | .idleState, .button _ v => decide (v ≠ ButtonEventType.press)
  | .surfingState, .button .stop .press => true
  | _, _ => false

/-- Battery hysteresis zone table as worded in the specification: from LOW move
to MEDIUM only when the average is at least low plus hysteresis; from MEDIUM
move to LOW when the average is at most low, or to HIGH when at least high;
from HIGH move to MEDIUM when the average is at most high minus hysteresis. -/
def specBattZoneTable (level : MoaBattLevel) (avg low high hyst : ℚ) : MoaBattLevel :=
  match level with
  | .battLow => if low + hyst ≤ avg then MoaBattLevel.battMedium else MoaBattLevel.battLow
  | .battMedium =>
      if avg ≤ low then MoaBattLevel.battLow
      else if high ≤ avg then MoaBattLevel.battHigh
      else MoaBattLevel.battMedium
  | .battHigh => if avg ≤ high - hyst then MoaBattLevel.battMedium else MoaBattLevel.battHigh

/-- Event commandType pushed for each battery level (pushBattEvent call sites). -/
def battLevelCode : MoaBattLevel → Nat
  | .battLow => 3
  | .battMedium => 2
  | .battHigh => 1


/-- Concrete battery detector state with a full one-sample buffer, used to
instantiate theorems whose hypotheses require readiness. -/
def battWitnessState : BattState :=
  { lowThreshold := 33/10, highThreshold := 4, hysteresis := 1/10, dividerRatio := 1,
    referenceVoltage := 33/10, adcResolution := 12, rawAdc := 0, currentVoltage := 0,
    level := MoaBattLevel.battMedium, samples := [0], numSamples := 1, sampleIndex := 0,
    sampleCount := 1, averagedVoltage := 0 }

/-- A concrete temperature-detector state: single-sample averaging, target 60,
hysteresis 2, currently below target. -/
def tempWitnessState : TempState :=
  { targetTemp := 60, hysteresis := 2, currentTemp := 0,
    state := MoaTempState.belowTarget, samples := [0], numSamples := 1,
    sampleIndex := 0, sampleCount := 0, averagedTemp := 0 }

/-- A concrete current-detector state: unit sensitivity, zero offset, thresholds
at 2 and -2 amps with hysteresis 1, single-sample averaging, normal zone. -/
def currentWitnessState : CurrentState :=
  { sensitivity := 1, zeroOffset := 0, referenceVoltage := 33/10, adcResolution := 12,
    overcurrentThreshold := 2, reverseOvercurrentThreshold := -2, hysteresis := 1,
    rawAdc := 0, adcVoltage := 0, currentReading := 0, state := MoaCurrentState.normal,
    samples := [0], numSamples := 1, sampleIndex := 0, sampleCount := 0, averagedCurrent := 0 }

/-- Whether a scheduled call at its time stamp satisfies the long-press firing
condition for press-start time p (interrupt drains never fire it). -/
def BtnStep.canFireLP (cfg : BtnCfg) (p : Nat) : BtnStep → Bool
  | .poll _ now => cfg.longPressMs ≤ u32sub now p
  | .checkLP now => cfg.longPressMs ≤ u32sub now p
  | .intr _ _ => false

/-- A concrete button timing configuration: 50 ms debounce, 5000 ms long press,
long-press detection enabled. -/
def btnCfgWitness : BtnCfg :=
  { debounceMs := 50, longPressMs := 5000, longPressEnabled := true }

/-! Theorems.  Claim theorems are stated over the embedded definitions above;
helper lemmas carry no claim by themselves. -/

/-- Computed value of the minimum duty bound. -/
theorem escMinThrottle_eq : escMinThrottle = 51 := rfl

/-- Computed value of the maximum duty bound. -/
theorem escMaxThrottle_eq : escMaxThrottle = 102 := rfl

/-- C1: the claim states that every transition runs the destination state's
onEnter exactly once, and that entering BatteryLow stops the motor and shows
the battery indicator.  In the code MoaStateMachine::setState only assigns the
state pointer and no call site of any onEnter exists, so the transition from
Surfing into BatteryLow on a battery-low event issues no motor stop at all:
the BatteryLowState::onEnter body contains the stop, but the event handling
never executes it (the dispatcher contributes only the log record and the
battery-level LED update). -/
theorem c1_surfing_batteryLow_skips_onEnter_motor_stop :
    MoaStateMachineManager.handleEvent MoaSMState.surfingState
        (EventKey.batt BattCode.levelLow) 19500
      = (MoaSMState.batteryLowState,
         [DevAction.logBatt 3 19500, DevAction.showBatteryLevel MoaBattLevel.battLow,
          DevAction.updateLog]) ∧
    DevAction.stopMotor ∈ BatteryLowState.onEnter ∧
    DevAction.stopMotor ∉
      (MoaStateMachineManager.handleEvent MoaSMState.surfingState
        (EventKey.batt BattCode.levelLow) 19500).2 := by
  decide

/-- C2 counterexample: in Idle a STOP long-press does not transition to Init;
the handler stops the motor and re-enters Idle. -/
theorem c2_idle_stop_longPress_stays_idle :
    (MoaStateMachineManager.handleEvent MoaSMState.idleState
        (EventKey.button ButtonId.stop ButtonEventType.longPress) 2).1 = MoaSMState.idleState ∧
    MoaSMState.idleState ≠ MoaSMState.initState := by
  decide

/-- C2 amended: a STOP long-press forces Init with a motor stop only from the
three safety states OverHeating, OverCurrent and BatteryLow; in Idle it stops
the motor but re-enters Idle, and in Surfing it is ignored entirely because
only PRESS sub-events are processed there. -/
theorem c2_stop_longPress_routing (v : Int) :
    MoaStateMachineManager.handleEvent MoaSMState.overHeatingState
        (EventKey.button ButtonId.stop ButtonEventType.longPress) v
      = (MoaSMState.initState,
         [DevAction.logButton LOG_BTN_STOP_LONG, DevAction.stopMotor, DevAction.updateLog]) ∧
    MoaStateMachineManager.handleEvent MoaSMState.overCurrentState
        (EventKey.button ButtonId.stop ButtonEventType.longPress) v
      = (MoaSMState.initState,
         [DevAction.logButton LOG_BTN_STOP_LONG, DevAction.stopMotor, DevAction.updateLog]) ∧
    MoaStateMachineManager.handleEvent MoaSMState.batteryLowState
        (EventKey.button ButtonId.stop ButtonEventType.longPress) v
      = (MoaSMState.initState,
         [DevAction.logButton LOG_BTN_STOP_LONG, DevAction.stopMotor, DevAction.updateLog]) ∧
    MoaStateMachineManager.handleEvent MoaSMState.idleState
        (EventKey.button ButtonId.stop ButtonEventType.longPress) v
      = (MoaSMState.idleState,
         [DevAction.logButton LOG_BTN_STOP_LONG, DevAction.stopMotor, DevAction.updateLog]) ∧
    MoaStateMachineManager.handleEvent MoaSMState.surfingState
        (EventKey.button ButtonId.stop ButtonEventType.longPress) v
      = (MoaSMState.surfingState,
         [DevAction.logButton LOG_BTN_STOP_LONG, DevAction.updateLog]) := by
  exact ⟨rfl, rfl, rfl, rfl, rfl⟩

/-- C4: in Surfing an OVERCURRENT event transitions to OverCurrent with both
throttle timers stopped and an immediate motor stop; ESCController::stop snaps
the output duty to the minimum bound at once with the ramp cancelled. -/
theorem c4_surfing_overcurrent_immediate_stop (v : Int) :
    MoaStateMachineManager.handleEvent MoaSMState.surfingState
        (EventKey.current CurrentCode.overcurrent) v
      = (MoaSMState.overCurrentState,
         [DevAction.logCurrent 1 (i16 v), DevAction.indicateOvercurrent false,
          DevAction.stopTimer TimerId.throttle, DevAction.stopTimer TimerId.fullThrottle,
          DevAction.stopMotor, DevAction.updateLog]) ∧
    (∀ esc : ESCState,
      (ESCController.stop esc).throttle = escMinThrottle ∧
      (ESCController.stop esc).currentThrottle = escMinThrottle ∧
      (ESCController.stop esc).ramping = false) := by
  refine ⟨rfl, fun esc => ?_⟩
  refine ⟨?_, ?_, ?_⟩ <;>
    simp [ESCController.stop, ESCController.setThrottle, escMinThrottle_eq, escMaxThrottle_eq]

/-- C5 counterexample: the pair (Surfing, Button STOP, Press) has no entry in
the transition table, yet handling it changes the state to Idle and issues
timer and motor commands. -/
theorem c5_surfing_stop_press_unlisted_acts :
    specListed MoaSMState.surfingState (EventKey.button ButtonId.stop ButtonEventType.press) = false ∧
    MoaStateMachine.handle MoaSMState.surfingState
        (EventKey.button ButtonId.stop ButtonEventType.press)
      = (MoaSMState.idleState,
         [DevAction.stopTimer TimerId.throttle, DevAction.stopTimer TimerId.fullThrottle,
          DevAction.stopMotor]) ∧
    MoaSMState.idleState ≠ MoaSMState.surfingState := by
  decide

/-- C5 amended: every (state, event-category, event-code) pair outside the
table is a no-op of the state machine, except the button pairs the code also
handles: in Idle any STOP sub-event stops the motor and re-enters Idle and any
sub-event of a throttle button engages Surfing, and in Surfing a STOP press
disengages to Idle.  (The event router separately updates indicator LEDs and
log records for every sensor event regardless of state.) -/
theorem c5_unlisted_pairs_noop :
    ∀ (s : MoaSMState) (k : EventKey),
      specListed s k = false → extraHandled s k = false →
      MoaStateMachine.handle s k = (s, []) := by
  decide

/-- Witness for the amended C5 frame property at a concrete unlisted pair. -/
theorem c5_unlisted_pairs_noop_witness :
    specListed MoaSMState.initState (EventKey.temp TempCode.crossedAbove) = false ∧
    extraHandled MoaSMState.initState (EventKey.temp TempCode.crossedAbove) = false ∧
    MoaStateMachine.handle MoaSMState.initState (EventKey.temp TempCode.crossedAbove)
      = (MoaSMState.initState, []) :=
  ⟨by decide, by decide,
   c5_unlisted_pairs_noop MoaSMState.initState (EventKey.temp TempCode.crossedAbove)
     (by decide) (by decide)⟩

/-- Truncating integer division by a positive divisor preserves nonpositivity. -/
theorem tdiv_nonpos_of_nonpos (d rt : Int) (hd : d ≤ 0) (hrt : 0 ≤ rt) :
    Int.tdiv d rt ≤ 0 := by
  have h := Int.tdiv_nonneg (a := -d) (b := rt) (by omega) hrt
  rw [Int.neg_tdiv] at h
  omega

theorem escInv_escInitial : escInv escInitial := by
  simp [escInv, escInitial, escMinThrottle_eq, escMaxThrottle_eq]

theorem escInv_stop (s : ESCState) (h : escInv s) : escInv (ESCController.stop s) := by
  obtain ⟨h1, h2, h3, h4, h5, h6, h7⟩ := h
  unfold ESCController.stop ESCController.setThrottle escInv
  simp only [escMinThrottle_eq, escMaxThrottle_eq] at *
  refine ⟨?_, ?_, ?_, ?_, h5, h6, ?_⟩ <;> simp

theorem escInv_updateThrottle (s : ESCState) (h : escInv s) :
    escInv (ESCController.updateThrottle s) := by
  obtain ⟨h1, h2, h3, h4, h5, h6, h7⟩ := h
  rw [escMinThrottle_eq] at h1 h3 h5
  rw [escMaxThrottle_eq] at h2 h4 h6
  unfold ESCController.updateThrottle
  split
  · exact ⟨by rw [escMinThrottle_eq]; exact h1, by rw [escMaxThrottle_eq]; exact h2,
      by rw [escMinThrottle_eq]; exact h3, by rw [escMaxThrottle_eq]; exact h4,
      by rw [escMinThrottle_eq]; exact h5, by rw [escMaxThrottle_eq]; exact h6, h7⟩
  · rename_i hrfalse
    have hr : s.ramping = true := by
      revert hrfalse; cases s.ramping <;> simp
    obtain ⟨hp, hn, hz, hlo, hhi⟩ := h7 hr
    split
    · rename_i hstep
      have hcur : s.currentThrottle < s.targetThrottle := hp hstep
      dsimp only
      split
      · rename_i hc
        unfold escInv
        simp only [escMinThrottle_eq, escMaxThrottle_eq]
        refine ⟨by omega, by omega, by omega, by omega, by omega, by omega, by simp⟩
      · rename_i hc
        unfold escInv u16 at *
        simp only [escMinThrottle_eq, escMaxThrottle_eq]
        refine ⟨by omega, by omega, by omega, by omega, by omega, by omega, ?_⟩
        intro _
        refine ⟨fun _ => by omega, fun hneg => by omega, hz, hlo, hhi⟩
    · split
      · rename_i hstep0 hstep
        have hcur : s.targetThrottle < s.currentThrottle := hn hstep
        dsimp only
        split
        · rename_i hc
          unfold escInv
          simp only [escMinThrottle_eq, escMaxThrottle_eq]
          refine ⟨by omega, by omega, by omega, by omega, by omega, by omega, by simp⟩
        · rename_i hc
          unfold escInv u16 at *
          simp only [escMinThrottle_eq, escMaxThrottle_eq]
          refine ⟨by omega, by omega, by omega, by omega, by omega, by omega, ?_⟩
          intro _
          refine ⟨fun hpos => by omega, fun _ => by omega, hz, hlo, hhi⟩
      · rename_i hstep0 hstepneg
        exact absurd (by omega : s.rampStep = 0) hz

theorem escInv_ramp_mk (s : ESCState) (tgt rt : Nat) (step2 : Int)
    (hth1 : 51 ≤ s.throttle) (hth2 : s.throttle ≤ 102)
    (hcu1 : 51 ≤ s.currentThrottle) (hcu2 : s.currentThrottle ≤ 102)
    (htg1 : 51 ≤ tgt) (htg2 : tgt ≤ 102)
    (hsp : 0 < step2 → s.currentThrottle < tgt)
    (hsn : step2 < 0 → tgt < s.currentThrottle)
    (hsz : step2 ≠ 0) (hs1 : -51 ≤ step2) (hs2 : step2 ≤ 51) :
    escInv { s with targetThrottle := tgt, rampTime := rt, rampStep := step2, ramping := true } := by
  unfold escInv
  simp only [escMinThrottle_eq, escMaxThrottle_eq]
  exact ⟨hth1, hth2, hcu1, hcu2, htg1, htg2, fun _ => ⟨hsp, hsn, hsz, hs1, hs2⟩⟩

theorem escInv_setRampThrottle (s : ESCState) (rampTime targetThrottle : Nat)
    (h : escInv s) (htgt : escMinThrottle ≤ targetThrottle) :
    escInv (ESCController.setRampThrottle s rampTime targetThrottle) := by
  obtain ⟨h1, h2, h3, h4, h5, h6, h7⟩ := h
  rw [escMinThrottle_eq] at h1 h3 h5 htgt
  rw [escMaxThrottle_eq] at h2 h4 h6
  unfold ESCController.setRampThrottle
  dsimp only
  set tgt := if targetThrottle > escMaxThrottle then escMaxThrottle else targetThrottle with htgtdef
  have htg1 : 51 ≤ tgt := by
    rw [htgtdef, escMaxThrottle_eq]; split <;> omega
  have htg2 : tgt ≤ 102 := by
    rw [htgtdef, escMaxThrottle_eq]; split <;> omega
  split
  · rename_i heq
    unfold escInv
    simp only [escMinThrottle_eq, escMaxThrottle_eq]
    exact ⟨h1, h2, h3, h4, htg1, htg2, by simp⟩
  · rename_i hne
    set rt2 := if rampTime > 0 then rampTime else 1 with hrt2def
    set d : Int := (tgt : Int) - (s.currentThrottle : Int) with hddef
    set q : Int := Int.tdiv d (rt2 : Int) with hqdef
    have hrt2nn : (0 : Int) ≤ (rt2 : Int) := by positivity
    have hdne : d ≠ 0 := by rw [hddef]; omega
    have hdabs : d.natAbs ≤ 51 := by rw [hddef]; omega
    have hqabs : q.natAbs ≤ 51 := by
      have ha : q.natAbs = d.natAbs / ((rt2 : Int)).natAbs := Int.natAbs_tdiv d (rt2 : Int)
      have hb := Nat.div_le_self d.natAbs ((rt2 : Int)).natAbs
      omega
    have hi : i16 q = q := by unfold i16; omega
    have hqpos : 0 < q → s.currentThrottle < tgt := by
      intro hq
      by_contra hcon
      have hd0 : d ≤ 0 := by rw [hddef]; omega
      have := tdiv_nonpos_of_nonpos d (rt2 : Int) hd0 hrt2nn
      rw [← hqdef] at this
      omega
    have hqneg : q < 0 → tgt < s.currentThrottle := by
      intro hq
      by_contra hcon
      have hd0 : (0 : Int) ≤ d := by rw [hddef]; omega
      have := Int.tdiv_nonneg hd0 hrt2nn
      rw [← hqdef] at this
      omega
    rw [hi]
    by_cases h0 : q = 0
    · rw [if_pos h0]
      by_cases hlt : (s.currentThrottle : Int) < (tgt : Int)
      · rw [if_pos hlt]
        exact escInv_ramp_mk s tgt rt2 1 h1 h2 h3 h4 htg1 htg2
          (fun _ => by omega) (fun hh => by omega) (by omega) (by omega) (by omega)
      · rw [if_neg hlt]
        have hgt : tgt < s.currentThrottle := by
          rcases Nat.lt_or_ge tgt s.currentThrottle with hh | hh
          · exact hh
          · exact absurd (by omega : (s.currentThrottle : Int) < (tgt : Int)) hlt
        exact escInv_ramp_mk s tgt rt2 (-1) h1 h2 h3 h4 htg1 htg2
          (fun hh => by omega) (fun _ => hgt) (by omega) (by omega) (by omega)
    · rw [if_neg h0]
      exact escInv_ramp_mk s tgt rt2 q h1 h2 h3 h4 htg1 htg2
        (fun hh => hqpos hh) (fun hh => hqneg hh) h0 (by omega) (by omega)

theorem escInv_setThrottlePercent (s : ESCState) (p : Nat) (h : escInv s) :
    escInv (ESCController.setThrottlePercent s p) := by
  unfold ESCController.setThrottlePercent
  dsimp only
  apply escInv_setRampThrottle _ _ _ h
  exact Nat.le_add_right _ _

theorem escInv_reachable (s : ESCState) (h : EscReachable s) : escInv s := by
  induction h with
  | start => exact escInv_escInitial
  | setPercent s p _ ih => exact escInv_setThrottlePercent s p ih
  | tick s _ ih => exact escInv_updateThrottle s ih
  | stop s _ ih => exact escInv_stop s ih

/-- C9: along every interleaving of setThrottlePercent calls, ramp ticks and
stop calls from the constructor state, the written duty and the ramp position
stay within the pulse-width bounds; and stop snaps the output to the minimum
duty at once with the ramp cancelled, never rate-limited. -/
theorem c9_esc_duty_bound_and_stop :
    (∀ s : ESCState, EscReachable s →
       escMinThrottle ≤ s.throttle ∧ s.throttle ≤ escMaxThrottle ∧
       escMinThrottle ≤ s.currentThrottle ∧ s.currentThrottle ≤ escMaxThrottle) ∧
    (∀ s : ESCState, (ESCController.stop s).throttle = escMinThrottle ∧
       (ESCController.stop s).ramping = false) := by
  constructor
  · intro s hs
    obtain ⟨a, b, c, d, _, _, _⟩ := escInv_reachable s hs
    exact ⟨a, b, c, d⟩
  · intro s
    refine ⟨?_, ?_⟩ <;>
      simp [ESCController.stop, ESCController.setThrottle, escMinThrottle_eq, escMaxThrottle_eq]

/-- Witness for C9 at a concrete reachable state: one full-throttle command
followed by one ramp tick. -/
theorem c9_esc_duty_bound_witness :
    escMinThrottle ≤
      (ESCController.updateThrottle (ESCController.setThrottlePercent escInitial 100)).throttle ∧
    (ESCController.updateThrottle (ESCController.setThrottlePercent escInitial 100)).throttle
      ≤ escMaxThrottle ∧
    escMinThrottle ≤
      (ESCController.updateThrottle (ESCController.setThrottlePercent escInitial 100)).currentThrottle ∧
    (ESCController.updateThrottle (ESCController.setThrottlePercent escInitial 100)).currentThrottle
      ≤ escMaxThrottle :=
  c9_esc_duty_bound_and_stop.1 _
    (EscReachable.tick _ (EscReachable.setPercent _ 100 EscReachable.start))

/-- Projection facts of MoaBattControl::addSample used throughout. -/
theorem addSample_level (s : BattState) (v : ℚ) :
    (MoaBattControl.addSample s v).level = s.level := rfl

theorem addSample_low (s : BattState) (v : ℚ) :
    (MoaBattControl.addSample s v).lowThreshold = s.lowThreshold := rfl

theorem addSample_high (s : BattState) (v : ℚ) :
    (MoaBattControl.addSample s v).highThreshold = s.highThreshold := rfl

theorem addSample_hyst (s : BattState) (v : ℚ) :
    (MoaBattControl.addSample s v).hysteresis = s.hysteresis := rfl

theorem addSample_num (s : BattState) (v : ℚ) :
    (MoaBattControl.addSample s v).numSamples = s.numSamples := rfl

theorem addSample_count_ge (s : BattState) (v : ℚ) :
    s.sampleCount ≤ (MoaBattControl.addSample s v).sampleCount := by
  unfold MoaBattControl.addSample
  dsimp only
  split <;> omega

/-- C6: once averaging is ready, each update call moves the battery zone
exactly as the hysteresis table of the specification prescribes (computed on
the refreshed average), and returns an event exactly when the zone changed,
carrying the code of the entered zone and the scaled average. -/
theorem c6_batt_update_matches_table (s : BattState) (rawAdc : Nat)
    (hready : s.numSamples ≤ s.sampleCount) :
    ((MoaBattControl.update s rawAdc).1).level
      = specBattZoneTable s.level ((MoaBattControl.update s rawAdc).1).averagedVoltage
          s.lowThreshold s.highThreshold s.hysteresis ∧
    ((MoaBattControl.update s rawAdc).2.isSome = true ↔
      ((MoaBattControl.update s rawAdc).1).level ≠ s.level) ∧
    (∀ e : BattEvent, (MoaBattControl.update s rawAdc).2 = some e →
      e.commandType = battLevelCode ((MoaBattControl.update s rawAdc).1).level ∧
      e.value = cTrunc (((MoaBattControl.update s rawAdc).1).averagedVoltage * 1000)) := by
  unfold MoaBattControl.update
  dsimp only
  have hr1 : MoaBattControl.isAveragingReady
      (MoaBattControl.addSample
        { s with rawAdc := rawAdc, currentVoltage := MoaBattControl.adcToVoltage s rawAdc }
        (MoaBattControl.adcToVoltage s rawAdc)) = true := by
    have hc := addSample_count_ge
      { s with rawAdc := rawAdc, currentVoltage := MoaBattControl.adcToVoltage s rawAdc }
      (MoaBattControl.adcToVoltage s rawAdc)
    simp only [MoaBattControl.isAveragingReady, addSample_num, decide_eq_true_iff]
    exact le_trans hready (by exact hc)
  rw [hr1]
  simp only [Bool.true_eq_false, if_false]
  set s1 := MoaBattControl.addSample
    { s with rawAdc := rawAdc, currentVoltage := MoaBattControl.adcToVoltage s rawAdc }
    (MoaBattControl.adcToVoltage s rawAdc) with hs1
  have hlev : s1.level = s.level := addSample_level _ _
  have hlow : s1.lowThreshold = s.lowThreshold := addSample_low _ _
  have hhigh : s1.highThreshold = s.highThreshold := addSample_high _ _
  have hhyst : s1.hysteresis = s.hysteresis := addSample_hyst _ _
  rw [hlev, hlow, hhigh, hhyst]
  rcases hl : s.level with _ | _ | _ <;>
    unfold specBattZoneTable <;>
    dsimp only <;>
    split_ifs <;>
    simp_all [battLevelCode]

theorem list_set_append_len {α : Type} (l1 l2 : List α) (v : α) :
    (l1 ++ l2).set l1.length v = l1 ++ l2.set 0 v := by
  induction l1 with
  | nil => rfl
  | cons a t ih => simp [ih]

theorem batt_addSample_fill (s : BattState) (front : List ℚ) (v : ℚ) (n : Nat)
    (hn : s.numSamples = n)
    (hsamples : s.samples = front ++ List.replicate (n - front.length) 0)
    (hlen : front.length < n)
    (hidx : s.sampleIndex = front.length)
    (hcount : s.sampleCount = front.length) :
    (MoaBattControl.addSample s v).samples
      = (front ++ [v]) ++ List.replicate (n - (front.length + 1)) 0 ∧
    (MoaBattControl.addSample s v).sampleIndex = (front.length + 1) % n ∧
    (MoaBattControl.addSample s v).sampleCount = front.length + 1 ∧
    (MoaBattControl.addSample s v).averagedVoltage
      = (front.sum + v) / ((front.length + 1 : Nat) : ℚ) := by
  have hset : s.samples.set s.sampleIndex v
      = (front ++ [v]) ++ List.replicate (n - (front.length + 1)) 0 := by
    rw [hsamples, hidx, list_set_append_len]
    have hrep : List.replicate (n - front.length) (0 : ℚ)
        = 0 :: List.replicate (n - (front.length + 1)) 0 := by
      have : n - front.length = (n - (front.length + 1)) + 1 := by omega
      rw [this, List.replicate_succ]
    rw [hrep]
    simp
  have htake : ((front ++ [v]) ++ List.replicate (n - (front.length + 1)) 0).take
      (front.length + 1) = front ++ [v] := by
    have hl : (front ++ [v]).length = front.length + 1 := by simp
    rw [← hl, List.take_left]
  unfold MoaBattControl.addSample MoaBattControl.calculateAverage
  dsimp only
  rw [hset, hidx, hcount, hn, if_pos hlen]
  have hne : ¬(front.length + 1 = 0) := by omega
  rw [if_neg hne, htake]
  refine ⟨rfl, rfl, rfl, ?_⟩
  simp

theorem batt_update_notready (s : BattState) (x : Nat)
    (h : s.sampleCount + 1 < s.numSamples) :
    MoaBattControl.update s x
      = (MoaBattControl.addSample
          { s with rawAdc := x, currentVoltage := MoaBattControl.adcToVoltage s x }
          (MoaBattControl.adcToVoltage s x), none) := by
  unfold MoaBattControl.update
  dsimp only
  have hcnt : (MoaBattControl.addSample
      { s with rawAdc := x, currentVoltage := MoaBattControl.adcToVoltage s x }
      (MoaBattControl.adcToVoltage s x)).sampleCount
      ≤ s.sampleCount + 1 := by
    unfold MoaBattControl.addSample
    dsimp only
    split <;> omega
  have hnotready : MoaBattControl.isAveragingReady
      (MoaBattControl.addSample
        { s with rawAdc := x, currentVoltage := MoaBattControl.adcToVoltage s x }
        (MoaBattControl.adcToVoltage s x)) = false := by
    simp only [MoaBattControl.isAveragingReady, addSample_num, decide_eq_false_iff_not, not_le]
    omega
  rw [hnotready, if_pos rfl]

theorem batt_run_cons (s : BattState) (x : Nat) (rest : List Nat) :
    MoaBattControl.run s (x :: rest)
      = ((MoaBattControl.run (MoaBattControl.update s x).1 rest).1,
         (match (MoaBattControl.update s x).2 with | some e => [e] | none => []) ++
           (MoaBattControl.run (MoaBattControl.update s x).1 rest).2) := rfl

theorem batt_run_fill (xs : List Nat) (s : BattState) (front : List ℚ)
    (hsamples : s.samples = front ++ List.replicate (s.numSamples - front.length) 0)
    (hfill : front.length + xs.length < s.numSamples)
    (hidx : s.sampleIndex = front.length)
    (hcount : s.sampleCount = front.length) :
    (MoaBattControl.run s xs).2 = [] ∧
    (MoaBattControl.run s xs).1.level = s.level ∧
    (MoaBattControl.run s xs).1.lowThreshold = s.lowThreshold ∧
    (MoaBattControl.run s xs).1.highThreshold = s.highThreshold ∧
    (MoaBattControl.run s xs).1.hysteresis = s.hysteresis ∧
    (MoaBattControl.run s xs).1.dividerRatio = s.dividerRatio ∧
    (MoaBattControl.run s xs).1.referenceVoltage = s.referenceVoltage ∧
    (MoaBattControl.run s xs).1.adcResolution = s.adcResolution ∧
    (MoaBattControl.run s xs).1.numSamples = s.numSamples ∧
    (MoaBattControl.run s xs).1.samples
      = (front ++ xs.map (MoaBattControl.adcToVoltage s))
          ++ List.replicate (s.numSamples - (front.length + xs.length)) 0 ∧
    (MoaBattControl.run s xs).1.sampleIndex = front.length + xs.length ∧
    (MoaBattControl.run s xs).1.sampleCount = front.length + xs.length := by
  induction xs generalizing s front with
  | nil =>
      refine ⟨rfl, rfl, rfl, rfl, rfl, rfl, rfl, rfl, rfl, ?_, ?_, ?_⟩ <;>
        simp [MoaBattControl.run, hsamples, hidx, hcount]
  | cons x rest ih =>
      have hlenxs : (x :: rest).length = rest.length + 1 := rfl
      rw [hlenxs] at hfill
      have hlen1 : front.length + 1 < s.numSamples := by omega
      have hupd := batt_update_notready s x (by omega)
      have hadd := batt_addSample_fill
        { s with rawAdc := x, currentVoltage := MoaBattControl.adcToVoltage s x }
        front (MoaBattControl.adcToVoltage s x) s.numSamples rfl hsamples (by omega) hidx hcount
      obtain ⟨ha1, ha2, ha3, ha4⟩ := hadd
      have hconv : MoaBattControl.adcToVoltage
          (MoaBattControl.addSample
            { s with rawAdc := x, currentVoltage := MoaBattControl.adcToVoltage s x }
            (MoaBattControl.adcToVoltage s x))
          = MoaBattControl.adcToVoltage s := rfl
      have hnum1 : (MoaBattControl.addSample
          { s with rawAdc := x, currentVoltage := MoaBattControl.adcToVoltage s x }
          (MoaBattControl.adcToVoltage s x)).numSamples = s.numSamples := rfl
      have hih := ih (MoaBattControl.addSample
          { s with rawAdc := x, currentVoltage := MoaBattControl.adcToVoltage s x }
          (MoaBattControl.adcToVoltage s x))
        (front ++ [MoaBattControl.adcToVoltage s x])
        (by rw [ha1, hnum1]
            simp only [List.length_append, List.length_singleton])
        (by rw [hnum1]
            simp only [List.length_append, List.length_singleton]
            omega)
        (by rw [ha2]
            simp only [List.length_append, List.length_singleton]
            exact Nat.mod_eq_of_lt hlen1)
        (by rw [ha3]
            simp only [List.length_append, List.length_singleton])
      obtain ⟨e1, l1, lo1, hi1, hy1, dv1, rv1, ar1, ns1, sm1, si1, sc1⟩ := hih
      rw [hconv] at sm1
      rw [batt_run_cons, hupd]
      dsimp only
      have hc : (front ++ [MoaBattControl.adcToVoltage s x]).length + rest.length
          = front.length + (x :: rest).length := by
        simp
        omega
      rw [hnum1] at sm1
      rw [hc] at sm1 si1 sc1
      refine ⟨by simp [e1], l1.trans rfl, lo1.trans rfl, hi1.trans rfl, hy1.trans rfl,
        dv1.trans rfl, rv1.trans rfl, ar1.trans rfl, ns1.trans rfl, ?_, si1, sc1⟩
      rw [sm1]
      simp [List.append_assoc]

theorem addSample_count (s : BattState) (v : ℚ) :
    (MoaBattControl.addSample s v).sampleCount
      = if s.sampleCount < s.numSamples then s.sampleCount + 1 else s.sampleCount := rfl

theorem batt_update_zone_eval (s : BattState) (rawAdc : Nat)
    (hready : s.numSamples ≤ s.sampleCount + 1) :
    ((MoaBattControl.update s rawAdc).1).level
      = specBattZoneTable s.level ((MoaBattControl.update s rawAdc).1).averagedVoltage
          s.lowThreshold s.highThreshold s.hysteresis ∧
    ((MoaBattControl.update s rawAdc).2.isSome = true ↔
      ((MoaBattControl.update s rawAdc).1).level ≠ s.level) ∧
    (∀ e : BattEvent, (MoaBattControl.update s rawAdc).2 = some e →
      e.commandType = battLevelCode ((MoaBattControl.update s rawAdc).1).level ∧
      e.value = cTrunc (((MoaBattControl.update s rawAdc).1).averagedVoltage * 1000)) := by
  unfold MoaBattControl.update
  dsimp only
  have hr1 : MoaBattControl.isAveragingReady
      (MoaBattControl.addSample
        { s with rawAdc := rawAdc, currentVoltage := MoaBattControl.adcToVoltage s rawAdc }
        (MoaBattControl.adcToVoltage s rawAdc)) = true := by
    simp only [MoaBattControl.isAveragingReady, addSample_num, addSample_count,
      decide_eq_true_iff]
    split <;> omega
  rw [hr1]
  simp only [Bool.true_eq_false, if_false]
  set s1 := MoaBattControl.addSample
    { s with rawAdc := rawAdc, currentVoltage := MoaBattControl.adcToVoltage s rawAdc }
    (MoaBattControl.adcToVoltage s rawAdc) with hs1
  have hlev : s1.level = s.level := rfl
  have hlow : s1.lowThreshold = s.lowThreshold := rfl
  have hhigh : s1.highThreshold = s.highThreshold := rfl
  have hhyst : s1.hysteresis = s.hysteresis := rfl
  rw [hlev, hlow, hhigh, hhyst]
  rcases hl : s.level with _ | _ | _ <;>
    unfold specBattZoneTable <;>
    dsimp only <;>
    split_ifs <;>
    simp_all [battLevelCode]

theorem batt_update_avg (s : BattState) (x : Nat) :
    (MoaBattControl.update s x).1.averagedVoltage
      = (MoaBattControl.addSample
          { s with rawAdc := x, currentVoltage := MoaBattControl.adcToVoltage s x }
          (MoaBattControl.adcToVoltage s x)).averagedVoltage := by
  unfold MoaBattControl.update
  dsimp only
  split
  · rfl
  · split_ifs <;> rfl

theorem batt_run_append (s : BattState) (xs ys : List Nat) :
    MoaBattControl.run s (xs ++ ys)
      = ((MoaBattControl.run (MoaBattControl.run s xs).1 ys).1,
         (MoaBattControl.run s xs).2
           ++ (MoaBattControl.run (MoaBattControl.run s xs).1 ys).2) := by
  induction xs generalizing s with
  | nil => simp [MoaBattControl.run]
  | cons x rest ih =>
      rw [List.cons_append, batt_run_cons, batt_run_cons, ih]
      simp [List.append_assoc]

theorem batt_split_ten (xs : List Nat) (h10 : xs.length = 10) :
    ∃ ys z, xs = ys ++ [z] ∧ ys.length = 9 := by
  rcases hd : xs.drop 9 with _ | ⟨z, tl⟩
  · exfalso
    have := congrArg List.length hd
    simp [h10] at this
  · rcases tl with _ | ⟨w, t⟩
    · refine ⟨xs.take 9, z, ?_, ?_⟩
      · rw [← hd, List.take_append_drop]
      · simp [h10]
    · exfalso
      have := congrArg List.length hd
      simp [h10] at this

theorem batt_construct_fields :
    (MoaBattControl.construct 10).numSamples = 10 ∧
    (MoaBattControl.construct 10).samples = List.replicate 10 0 ∧
    (MoaBattControl.construct 10).sampleIndex = 0 ∧
    (MoaBattControl.construct 10).sampleCount = 0 ∧
    (MoaBattControl.construct 10).level = MoaBattLevel.battMedium ∧
    (MoaBattControl.construct 10).lowThreshold = 33/10 ∧
    (MoaBattControl.construct 10).highThreshold = 4 ∧
    (MoaBattControl.construct 10).hysteresis = 1/10 := by
  refine ⟨?_, ?_, ?_, ?_, ?_, ?_, ?_, ?_⟩ <;> rfl

theorem batt_after_ten (ys : List Nat) (z : Nat) (hys9 : ys.length = 9) :
    (MoaBattControl.run (MoaBattControl.construct 10) ys).2 = [] ∧
    (MoaBattControl.run (MoaBattControl.construct 10) ys).1.level = MoaBattLevel.battMedium ∧
    (MoaBattControl.run (MoaBattControl.construct 10) ys).1.sampleCount = 9 ∧
    (MoaBattControl.run (MoaBattControl.construct 10) (ys ++ [z])).1.averagedVoltage
      = ((ys ++ [z]).map (MoaBattControl.adcToVoltage (MoaBattControl.construct 10))).sum / 10 ∧
    (MoaBattControl.run (MoaBattControl.construct 10) (ys ++ [z])).1.level
      = specBattZoneTable MoaBattLevel.battMedium
          (((ys ++ [z]).map (MoaBattControl.adcToVoltage (MoaBattControl.construct 10))).sum / 10)
          (33/10) 4 (1/10) ∧
    (MoaBattControl.run (MoaBattControl.construct 10) (ys ++ [z])).2
      = (match (MoaBattControl.update
            (MoaBattControl.run (MoaBattControl.construct 10) ys).1 z).2 with
         | some e => [e]
         | none => []) ∧
    ((MoaBattControl.update (MoaBattControl.run (MoaBattControl.construct 10) ys).1 z).2.isSome
        = true ↔
      (MoaBattControl.run (MoaBattControl.construct 10) (ys ++ [z])).1.level
        ≠ MoaBattLevel.battMedium) ∧
    (∀ e, (MoaBattControl.update (MoaBattControl.run (MoaBattControl.construct 10) ys).1 z).2
        = some e →
      e.commandType
        = battLevelCode (MoaBattControl.run (MoaBattControl.construct 10) (ys ++ [z])).1.level) := by
  have hfill := batt_run_fill ys (MoaBattControl.construct 10) []
    (by simp only [List.nil_append, List.length_nil, Nat.sub_zero]; rfl)
    (by simp only [List.length_nil, Nat.zero_add, hys9]; decide) rfl rfl
  obtain ⟨e1, l1, lo1, hi1, hy1, dv1, rv1, ar1, ns1, sm1, si1, sc1⟩ := hfill
  simp only [List.nil_append, List.length_nil, Nat.zero_add, hys9] at sm1 si1 sc1
  have hCnum : (MoaBattControl.construct 10).numSamples = 10 := rfl
  rw [hCnum] at sm1 ns1
  set s9 := (MoaBattControl.run (MoaBattControl.construct 10) ys).1 with hs9def
  have hfl : (ys.map (MoaBattControl.adcToVoltage (MoaBattControl.construct 10))).length = 9 := by
    simp [hys9]
  have hrun2 : (MoaBattControl.run (MoaBattControl.construct 10) (ys ++ [z])).1
      = (MoaBattControl.update s9 z).1 := by
    rw [batt_run_append]
    rfl
  have hconv9 : MoaBattControl.adcToVoltage s9
      = MoaBattControl.adcToVoltage (MoaBattControl.construct 10) := by
    funext r
    unfold MoaBattControl.adcToVoltage
    rw [dv1, rv1, ar1]
  have hadd9 := batt_addSample_fill
    { s9 with rawAdc := z, currentVoltage := MoaBattControl.adcToVoltage s9 z }
    (ys.map (MoaBattControl.adcToVoltage (MoaBattControl.construct 10)))
    (MoaBattControl.adcToVoltage s9 z)
    10 ns1
    (by rw [hfl]; exact sm1)
    (by rw [hfl]; norm_num)
    (by rw [hfl]; exact si1)
    (by rw [hfl]; exact sc1)
  obtain ⟨hb1, hb2, hb3, hb4⟩ := hadd9
  have havg : (MoaBattControl.run (MoaBattControl.construct 10) (ys ++ [z])).1.averagedVoltage
      = ((ys ++ [z]).map (MoaBattControl.adcToVoltage (MoaBattControl.construct 10))).sum / 10 := by
    rw [hrun2, batt_update_avg, hb4, hfl, hconv9]
    simp only [List.map_append, List.sum_append, List.map_cons, List.map_nil, List.sum_cons,
      List.sum_nil]
    norm_num
  have hzone := batt_update_zone_eval s9 z (by rw [ns1, sc1])
  have hlev9 : s9.level = MoaBattLevel.battMedium := l1.trans rfl
  have hlow9 : s9.lowThreshold = 33/10 := lo1.trans rfl
  have hhigh9 : s9.highThreshold = 4 := hi1.trans rfl
  have hhyst9 : s9.hysteresis = 1/10 := hy1.trans rfl
  have hz1 := hzone.1
  rw [hlev9, hlow9, hhigh9, hhyst9] at hz1
  have hlevfull : (MoaBattControl.run (MoaBattControl.construct 10) (ys ++ [z])).1.level
      = specBattZoneTable MoaBattLevel.battMedium
          (((ys ++ [z]).map (MoaBattControl.adcToVoltage (MoaBattControl.construct 10))).sum / 10)
          (33/10) 4 (1/10) := by
    rw [hrun2, hz1, ← hrun2, havg]
  have hevents : (MoaBattControl.run (MoaBattControl.construct 10) (ys ++ [z])).2
      = (match (MoaBattControl.update s9 z).2 with
         | some e => [e]
         | none => []) := by
    rw [batt_run_append, e1]
    simp only [List.nil_append]
    rw [batt_run_cons]
    simp [MoaBattControl.run]
  have hsome := hzone.2.1
  rw [hlev9, ← hrun2] at hsome
  refine ⟨e1, hlev9, sc1, havg, hlevfull, hevents, hsome, ?_⟩
  intro e he
  have := (hzone.2.2 e he).1
  rw [← hrun2] at this
  exact this

/-- C8: with ten configured samples, the first nine update calls emit nothing
and leave the zone untouched (the buffer holds nine samples, so the zone logic
is never reached), and the tenth call evaluates the zone table on exactly the
arithmetic mean of the ten converted samples. -/
theorem c8_batt_averaging_gating (xs : List Nat) (h10 : xs.length = 10) :
    (MoaBattControl.run (MoaBattControl.construct 10) (xs.take 9)).2 = [] ∧
    (MoaBattControl.run (MoaBattControl.construct 10) (xs.take 9)).1.level
      = MoaBattLevel.battMedium ∧
    (MoaBattControl.run (MoaBattControl.construct 10) (xs.take 9)).1.sampleCount = 9 ∧
    (MoaBattControl.run (MoaBattControl.construct 10) xs).1.averagedVoltage
      = (xs.map (MoaBattControl.adcToVoltage (MoaBattControl.construct 10))).sum / 10 ∧
    (MoaBattControl.run (MoaBattControl.construct 10) xs).1.level
      = specBattZoneTable MoaBattLevel.battMedium
          ((xs.map (MoaBattControl.adcToVoltage (MoaBattControl.construct 10))).sum / 10)
          (33/10) 4 (1/10) := by
  obtain ⟨ys, z, hxs, hys9⟩ := batt_split_ten xs h10
  subst hxs
  have htake : (ys ++ [z]).take 9 = ys := by
    rw [← hys9]
    exact List.take_left ys [z]
  rw [htake]
  obtain ⟨p1, p2, p3, p4, p5, _, _, _⟩ := batt_after_ten ys z hys9
  exact ⟨p1, p2, p3, p4, p5⟩

/-- C10: the battery detector is constructed in the MEDIUM zone without
measuring; hence a startup whose converted samples all sit at or below the low
threshold emits a BATT_LOW zone-change event on the tenth call even though the
average never crossed the threshold from above, and symmetrically a BATT_HIGH
event when every sample sits at or above the high threshold. -/
theorem c10_batt_initial_medium_first_event :
    (∀ n : Nat, (MoaBattControl.construct n).level = MoaBattLevel.battMedium) ∧
    (∀ xs : List Nat, xs.length = 10 →
      (∀ x ∈ xs, MoaBattControl.adcToVoltage (MoaBattControl.construct 10) x
          ≤ (MoaBattControl.construct 10).lowThreshold) →
      (MoaBattControl.run (MoaBattControl.construct 10) xs).2.map BattEvent.commandType = [3] ∧
      (MoaBattControl.run (MoaBattControl.construct 10) xs).1.level = MoaBattLevel.battLow) ∧
    (∀ xs : List Nat, xs.length = 10 →
      (∀ x ∈ xs, (MoaBattControl.construct 10).highThreshold
          ≤ MoaBattControl.adcToVoltage (MoaBattControl.construct 10) x) →
      (MoaBattControl.run (MoaBattControl.construct 10) xs).2.map BattEvent.commandType = [1] ∧
      (MoaBattControl.run (MoaBattControl.construct 10) xs).1.level = MoaBattLevel.battHigh) := by
  refine ⟨fun n => rfl, ?_, ?_⟩
  · intro xs h10 hall
    obtain ⟨ys, z, hxs, hys9⟩ := batt_split_ten xs h10
    subst hxs
    obtain ⟨p1, p2, p3, p4, p5, p6, p7, p8⟩ := batt_after_ten ys z hys9
    have hlen10 : ((ys ++ [z]).map
        (MoaBattControl.adcToVoltage (MoaBattControl.construct 10))).length = 10 := by
      simp [hys9]
    have hsum := List.sum_le_card_nsmul
      ((ys ++ [z]).map (MoaBattControl.adcToVoltage (MoaBattControl.construct 10))) ((33:ℚ)/10)
      (by intro y hy
          obtain ⟨r, hr, rfl⟩ := List.mem_map.mp hy
          exact hall r hr)
    rw [hlen10, nsmul_eq_mul] at hsum
    have hmean : (((ys ++ [z]).map
        (MoaBattControl.adcToVoltage (MoaBattControl.construct 10))).sum / 10 : ℚ) ≤ 33/10 := by
      rw [div_le_iff₀ (by norm_num : (0:ℚ) < 10)]
      calc ((ys ++ [z]).map (MoaBattControl.adcToVoltage (MoaBattControl.construct 10))).sum
          ≤ (10 : ℕ) * ((33:ℚ)/10) := hsum
        _ = 33/10 * 10 := by push_cast; ring
    have htab : specBattZoneTable MoaBattLevel.battMedium
        (((ys ++ [z]).map (MoaBattControl.adcToVoltage (MoaBattControl.construct 10))).sum / 10)
        (33/10) 4 (1/10) = MoaBattLevel.battLow := by
      unfold specBattZoneTable
      rw [if_pos hmean]
    have hlev : (MoaBattControl.run (MoaBattControl.construct 10) (ys ++ [z])).1.level
        = MoaBattLevel.battLow := p5.trans htab
    have hne : (MoaBattControl.run (MoaBattControl.construct 10) (ys ++ [z])).1.level
        ≠ MoaBattLevel.battMedium := by rw [hlev]; decide
    have hsome := p7.mpr hne
    obtain ⟨e, he⟩ := Option.isSome_iff_exists.mp hsome
    have hcode := p8 e he
    rw [hlev] at hcode
    refine ⟨?_, hlev⟩
    rw [p6, he]
    simp [hcode, battLevelCode]
  · intro xs h10 hall
    obtain ⟨ys, z, hxs, hys9⟩ := batt_split_ten xs h10
    subst hxs
    obtain ⟨p1, p2, p3, p4, p5, p6, p7, p8⟩ := batt_after_ten ys z hys9
    have hlen10 : ((ys ++ [z]).map
        (MoaBattControl.adcToVoltage (MoaBattControl.construct 10))).length = 10 := by
      simp [hys9]
    have hsum := List.card_nsmul_le_sum
      ((ys ++ [z]).map (MoaBattControl.adcToVoltage (MoaBattControl.construct 10))) ((4:ℚ))
      (by intro y hy
          obtain ⟨r, hr, rfl⟩ := List.mem_map.mp hy
          exact hall r hr)
    rw [hlen10, nsmul_eq_mul] at hsum
    have hmean : (4:ℚ) ≤ ((ys ++ [z]).map
        (MoaBattControl.adcToVoltage (MoaBattControl.construct 10))).sum / 10 := by
      rw [le_div_iff₀ (by norm_num : (0:ℚ) < 10)]
      calc (4:ℚ) * 10 = (10 : ℕ) * (4:ℚ) := by push_cast; ring
        _ ≤ _ := hsum
    have hnotlow : ¬(((ys ++ [z]).map
        (MoaBattControl.adcToVoltage (MoaBattControl.construct 10))).sum / 10 ≤ (33:ℚ)/10) := by
      intro hcon
      linarith
    have htab : specBattZoneTable MoaBattLevel.battMedium
        (((ys ++ [z]).map (MoaBattControl.adcToVoltage (MoaBattControl.construct 10))).sum / 10)
        (33/10) 4 (1/10) = MoaBattLevel.battHigh := by
      unfold specBattZoneTable
      rw [if_neg hnotlow, if_pos hmean]
    have hlev : (MoaBattControl.run (MoaBattControl.construct 10) (ys ++ [z])).1.level
        = MoaBattLevel.battHigh := p5.trans htab
    have hne : (MoaBattControl.run (MoaBattControl.construct 10) (ys ++ [z])).1.level
        ≠ MoaBattLevel.battMedium := by rw [hlev]; decide
    have hsome := p7.mpr hne
    obtain ⟨e, he⟩ := Option.isSome_iff_exists.mp hsome
    have hcode := p8 e he
    rw [hlev] at hcode
    refine ⟨?_, hlev⟩
    rw [p6, he]
    simp [hcode, battLevelCode]

/-- Witness for C6 at a concrete ready detector state. -/
theorem c6_batt_update_matches_table_witness :
    ((MoaBattControl.update battWitnessState 4095).1).level
      = specBattZoneTable battWitnessState.level
          ((MoaBattControl.update battWitnessState 4095).1).averagedVoltage
          battWitnessState.lowThreshold battWitnessState.highThreshold
          battWitnessState.hysteresis ∧
    ((MoaBattControl.update battWitnessState 4095).2.isSome = true ↔
      ((MoaBattControl.update battWitnessState 4095).1).level ≠ battWitnessState.level) ∧
    (∀ e : BattEvent, (MoaBattControl.update battWitnessState 4095).2 = some e →
      e.commandType = battLevelCode ((MoaBattControl.update battWitnessState 4095).1).level ∧
      e.value = cTrunc (((MoaBattControl.update battWitnessState 4095).1).averagedVoltage * 1000)) :=
  c6_batt_update_matches_table battWitnessState 4095 (by decide)

/-- Witness for C8 on ten zero readings. -/
theorem c8_batt_averaging_gating_witness :
    (MoaBattControl.run (MoaBattControl.construct 10) ((List.replicate 10 0).take 9)).2 = [] ∧
    (MoaBattControl.run (MoaBattControl.construct 10) ((List.replicate 10 0).take 9)).1.level
      = MoaBattLevel.battMedium ∧
    (MoaBattControl.run (MoaBattControl.construct 10)
        ((List.replicate 10 0).take 9)).1.sampleCount = 9 ∧
    (MoaBattControl.run (MoaBattControl.construct 10) (List.replicate 10 0)).1.averagedVoltage
      = ((List.replicate 10 0).map
          (MoaBattControl.adcToVoltage (MoaBattControl.construct 10))).sum / 10 ∧
    (MoaBattControl.run (MoaBattControl.construct 10) (List.replicate 10 0)).1.level
      = specBattZoneTable MoaBattLevel.battMedium
          (((List.replicate 10 0).map
            (MoaBattControl.adcToVoltage (MoaBattControl.construct 10))).sum / 10)
          (33/10) 4 (1/10) :=
  c8_batt_averaging_gating (List.replicate 10 0) (by decide)

/-- Witness for C10: ten empty readings versus ten readings of double full
scale. -/
theorem c10_batt_initial_medium_first_event_witness :
    (MoaBattControl.construct 5).level = MoaBattLevel.battMedium ∧
    ((MoaBattControl.run (MoaBattControl.construct 10) (List.replicate 10 0)).2.map
        BattEvent.commandType = [3] ∧
      (MoaBattControl.run (MoaBattControl.construct 10)
        (List.replicate 10 0)).1.level = MoaBattLevel.battLow) ∧
    ((MoaBattControl.run (MoaBattControl.construct 10) (List.replicate 10 8190)).2.map
        BattEvent.commandType = [1] ∧
      (MoaBattControl.run (MoaBattControl.construct 10)
        (List.replicate 10 8190)).1.level = MoaBattLevel.battHigh) :=
  ⟨c10_batt_initial_medium_first_event.1 5,
   c10_batt_initial_medium_first_event.2.1 (List.replicate 10 0) (by decide)
     (by
       intro x hx
       rw [List.eq_of_mem_replicate hx]
       have hlow : (MoaBattControl.construct 10).lowThreshold = 33/10 := rfl
       rw [hlow]
       norm_num [MoaBattControl.adcToVoltage]),
   c10_batt_initial_medium_first_event.2.2 (List.replicate 10 8190) (by decide)
     (by
       intro x hx
       rw [List.eq_of_mem_replicate hx]
       have hhigh : (MoaBattControl.construct 10).highThreshold = 4 := rfl
       rw [hhigh]
       have hres : (MoaBattControl.construct 10).adcResolution = 12 := rfl
       have href : (MoaBattControl.construct 10).referenceVoltage = 33/10 := rfl
       have hdiv : (MoaBattControl.construct 10).dividerRatio = 1 := rfl
       unfold MoaBattControl.adcToVoltage
       rw [hres, href, hdiv]
       norm_num)⟩

theorem batt_update_fields (s : BattState) (x : Nat) :
    (MoaBattControl.update s x).1.lowThreshold = s.lowThreshold ∧
    (MoaBattControl.update s x).1.highThreshold = s.highThreshold ∧
    (MoaBattControl.update s x).1.hysteresis = s.hysteresis := by
  unfold MoaBattControl.update
  dsimp only
  split
  · exact ⟨rfl, rfl, rfl⟩
  · split_ifs <;> exact ⟨rfl, rfl, rfl⟩

theorem batt_avgTrace_cons (s : BattState) (x : Nat) (rest : List Nat) :
    MoaBattControl.avgTrace s (x :: rest)
      = (MoaBattControl.update s x).1.averagedVoltage
          :: MoaBattControl.avgTrace (MoaBattControl.update s x).1 rest := rfl

theorem batt_noChatter_step (s : BattState) (x : Nat)
    (hlev : s.level ≠ MoaBattLevel.battHigh)
    (hcfg : s.lowThreshold + s.hysteresis ≤ s.highThreshold)
    (hlo : s.lowThreshold < (MoaBattControl.update s x).1.averagedVoltage)
    (hhi : (MoaBattControl.update s x).1.averagedVoltage < s.lowThreshold + s.hysteresis) :
    (MoaBattControl.update s x).2 = none ∧
    (MoaBattControl.update s x).1.level = s.level := by
  rw [batt_update_avg] at hlo hhi
  unfold MoaBattControl.update
  dsimp only
  set t := MoaBattControl.addSample
    { s with rawAdc := x, currentVoltage := MoaBattControl.adcToVoltage s x }
    (MoaBattControl.adcToVoltage s x) with ht
  have htl : t.level = s.level := addSample_level _ _
  have htlow : t.lowThreshold = s.lowThreshold := addSample_low _ _
  have hthigh : t.highThreshold = s.highThreshold := addSample_high _ _
  have hthyst : t.hysteresis = s.hysteresis := addSample_hyst _ _
  split
  · exact ⟨rfl, rfl⟩
  · rcases hl : s.level with _ | _ | _
    · have hc : ¬(t.lowThreshold + t.hysteresis ≤ t.averagedVoltage) := by
        rw [htlow, hthyst]; exact not_le.mpr hhi
      simp only [htl, hl]
      rw [if_neg hc]
      simp [hl]
    · have hc1 : ¬(t.averagedVoltage ≤ t.lowThreshold) := by
        rw [htlow]; exact not_le.mpr hlo
      have hc2 : ¬(t.highThreshold ≤ t.averagedVoltage) := by
        rw [hthigh]; exact not_le.mpr (lt_of_lt_of_le hhi hcfg)
      simp only [htl, hl]
      rw [if_neg hc1, if_neg hc2]
      simp [hl]
    · exact absurd hl hlev

theorem batt_noChatter (xs : List Nat) (s : BattState)
    (hlev : s.level ≠ MoaBattLevel.battHigh)
    (hcfg : s.lowThreshold + s.hysteresis ≤ s.highThreshold)
    (hband : ∀ a ∈ MoaBattControl.avgTrace s xs,
      s.lowThreshold < a ∧ a < s.lowThreshold + s.hysteresis) :
    (MoaBattControl.run s xs).2 = [] ∧
    (MoaBattControl.run s xs).1.level = s.level := by
  induction xs generalizing s with
  | nil => exact ⟨rfl, rfl⟩
  | cons x rest ih =>
      have hmem : (MoaBattControl.update s x).1.averagedVoltage
          ∈ MoaBattControl.avgTrace s (x :: rest) := by
        rw [batt_avgTrace_cons]
        exact List.mem_cons_self _ _
      obtain ⟨hb1, hb2⟩ := hband _ hmem
      obtain ⟨hnone, hlevp⟩ := batt_noChatter_step s x hlev hcfg hb1 hb2
      obtain ⟨hf1, hf2, hf3⟩ := batt_update_fields s x
      have hih := ih (MoaBattControl.update s x).1
        (by rw [hlevp]; exact hlev)
        (by rw [hf1, hf2, hf3]; exact hcfg)
        (by intro a ha
            have : a ∈ MoaBattControl.avgTrace s (x :: rest) := by
              rw [batt_avgTrace_cons]
              exact List.mem_cons_of_mem _ ha
            obtain ⟨u1, u2⟩ := hband a this
            rw [hf1, hf3]
            exact ⟨u1, u2⟩)
      obtain ⟨hr1, hr2⟩ := hih
      rw [batt_run_cons]
      refine ⟨?_, hr2.trans hlevp⟩
      rw [hnone, hr1]
      rfl

theorem temp_update_avg (s : TempState) (x : ℚ) (hd : x ≠ DEVICE_DISCONNECTED_C) :
    (MoaTempControl.update s x).1.averagedTemp
      = (MoaTempControl.addSample { s with currentTemp := x } x).averagedTemp := by
  unfold MoaTempControl.update
  rw [if_neg hd]
  dsimp only
  split
  · rfl
  · split_ifs <;> rfl

theorem temp_update_fields (s : TempState) (x : ℚ) :
    (MoaTempControl.update s x).1.targetTemp = s.targetTemp ∧
    (MoaTempControl.update s x).1.hysteresis = s.hysteresis := by
  unfold MoaTempControl.update
  dsimp only
  split
  · exact ⟨rfl, rfl⟩
  · split
    · exact ⟨rfl, rfl⟩
    · split_ifs <;> exact ⟨rfl, rfl⟩

theorem temp_avgTrace_cons (s : TempState) (x : ℚ) (rest : List ℚ) :
    MoaTempControl.avgTrace s (x :: rest)
      = (MoaTempControl.update s x).1.averagedTemp
          :: MoaTempControl.avgTrace (MoaTempControl.update s x).1 rest := rfl

theorem temp_run_cons (s : TempState) (x : ℚ) (rest : List ℚ) :
    MoaTempControl.run s (x :: rest)
      = ((MoaTempControl.run (MoaTempControl.update s x).1 rest).1,
         (match (MoaTempControl.update s x).2 with | some e => [e] | none => []) ++
           (MoaTempControl.run (MoaTempControl.update s x).1 rest).2) := rfl

theorem temp_noChatter_step (s : TempState) (x : ℚ)
    (hlo : s.targetTemp - s.hysteresis < (MoaTempControl.update s x).1.averagedTemp)
    (hhi : (MoaTempControl.update s x).1.averagedTemp < s.targetTemp) :
    (MoaTempControl.update s x).2 = none ∧
    (MoaTempControl.update s x).1.state = s.state := by
  by_cases hd : x = DEVICE_DISCONNECTED_C
  · unfold MoaTempControl.update
    rw [if_pos hd]
    exact ⟨rfl, rfl⟩
  · rw [temp_update_avg s x hd] at hlo hhi
    unfold MoaTempControl.update
    rw [if_neg hd]
    dsimp only
    set t := MoaTempControl.addSample { s with currentTemp := x } x with ht
    have hts : t.state = s.state := rfl
    have htt : t.targetTemp = s.targetTemp := rfl
    have hth : t.hysteresis = s.hysteresis := rfl
    split
    · exact ⟨rfl, hts⟩
    · have hc1 : ¬(t.state = MoaTempState.belowTarget ∧ t.targetTemp ≤ t.averagedTemp) := by
        rintro ⟨-, hc⟩
        rw [htt] at hc
        exact absurd hc (not_le.mpr hhi)
      have hc2 : ¬(t.state = MoaTempState.aboveTarget ∧
          t.averagedTemp ≤ t.targetTemp - t.hysteresis) := by
        rintro ⟨-, hc⟩
        rw [htt, hth] at hc
        exact absurd hc (not_le.mpr hlo)
      rw [if_neg hc1, if_neg hc2]
      exact ⟨rfl, hts⟩

theorem temp_noChatter (xs : List ℚ) (s : TempState)
    (hband : ∀ a ∈ MoaTempControl.avgTrace s xs,
      s.targetTemp - s.hysteresis < a ∧ a < s.targetTemp) :
    (MoaTempControl.run s xs).2 = [] ∧
    (MoaTempControl.run s xs).1.state = s.state := by
  induction xs generalizing s with
  | nil => exact ⟨rfl, rfl⟩
  | cons x rest ih =>
      have hmem : (MoaTempControl.update s x).1.averagedTemp
          ∈ MoaTempControl.avgTrace s (x :: rest) := by
        rw [temp_avgTrace_cons]
        exact List.mem_cons_self _ _
      obtain ⟨hb1, hb2⟩ := hband _ hmem
      obtain ⟨hnone, hstp⟩ := temp_noChatter_step s x hb1 hb2
      obtain ⟨hf1, hf2⟩ := temp_update_fields s x
      have hih := ih (MoaTempControl.update s x).1
        (by intro a ha
            have : a ∈ MoaTempControl.avgTrace s (x :: rest) := by
              rw [temp_avgTrace_cons]
              exact List.mem_cons_of_mem _ ha
            obtain ⟨u1, u2⟩ := hband a this
            rw [hf1, hf2]
            exact ⟨u1, u2⟩)
      obtain ⟨hr1, hr2⟩ := hih
      rw [temp_run_cons]
      refine ⟨?_, hr2.trans hstp⟩
      rw [hnone, hr1]
      rfl

theorem current_update_avg (s : CurrentState) (x : Nat) :
    (MoaCurrentControl.update s x).1.averagedCurrent
      = (MoaCurrentControl.addSample
          { s with rawAdc := x,
                   adcVoltage := ((x : ℚ) / ((2 ^ s.adcResolution - 1 : Nat) : ℚ))
                     * s.referenceVoltage,
                   currentReading := (((x : ℚ) / ((2 ^ s.adcResolution - 1 : Nat) : ℚ))
                     * s.referenceVoltage - s.zeroOffset) / s.sensitivity }
          ((((x : ℚ) / ((2 ^ s.adcResolution - 1 : Nat) : ℚ))
            * s.referenceVoltage - s.zeroOffset) / s.sensitivity)).averagedCurrent := by
  unfold MoaCurrentControl.update
  dsimp only
  split
  · rfl
  · split_ifs <;> rfl

theorem current_update_fields (s : CurrentState) (x : Nat) :
    (MoaCurrentControl.update s x).1.overcurrentThreshold = s.overcurrentThreshold ∧
    (MoaCurrentControl.update s x).1.reverseOvercurrentThreshold
      = s.reverseOvercurrentThreshold ∧
    (MoaCurrentControl.update s x).1.hysteresis = s.hysteresis := by
  unfold MoaCurrentControl.update
  dsimp only
  split
  · exact ⟨rfl, rfl, rfl⟩
  · split_ifs <;> exact ⟨rfl, rfl, rfl⟩

theorem current_avgTrace_cons (s : CurrentState) (x : Nat) (rest : List Nat) :
    MoaCurrentControl.avgTrace s (x :: rest)
      = (MoaCurrentControl.update s x).1.averagedCurrent
          :: MoaCurrentControl.avgTrace (MoaCurrentControl.update s x).1 rest := rfl

theorem current_run_cons (s : CurrentState) (x : Nat) (rest : List Nat) :
    MoaCurrentControl.run s (x :: rest)
      = ((MoaCurrentControl.run (MoaCurrentControl.update s x).1 rest).1,
         (match (MoaCurrentControl.update s x).2 with | some e => [e] | none => []) ++
           (MoaCurrentControl.run (MoaCurrentControl.update s x).1 rest).2) := rfl

theorem current_noChatter_step (s : CurrentState) (x : Nat)
    (hst : s.state ≠ MoaCurrentState.reverseOvercurrent)
    (hcfg : s.reverseOvercurrentThreshold ≤ s.overcurrentThreshold - s.hysteresis)
    (hlo : s.overcurrentThreshold - s.hysteresis
      < (MoaCurrentControl.update s x).1.averagedCurrent)
    (hhi : (MoaCurrentControl.update s x).1.averagedCurrent < s.overcurrentThreshold) :
    (MoaCurrentControl.update s x).2 = none ∧
    (MoaCurrentControl.update s x).1.state = s.state := by
  rw [current_update_avg] at hlo hhi
  unfold MoaCurrentControl.update
  dsimp only
  set t := MoaCurrentControl.addSample
    { s with rawAdc := x,
             adcVoltage := ((x : ℚ) / ((2 ^ s.adcResolution - 1 : Nat) : ℚ))
               * s.referenceVoltage,
             currentReading := (((x : ℚ) / ((2 ^ s.adcResolution - 1 : Nat) : ℚ))
               * s.referenceVoltage - s.zeroOffset) / s.sensitivity }
    ((((x : ℚ) / ((2 ^ s.adcResolution - 1 : Nat) : ℚ))
      * s.referenceVoltage - s.zeroOffset) / s.sensitivity) with ht
  have hts : t.state = s.state := rfl
  have htov : t.overcurrentThreshold = s.overcurrentThreshold := rfl
  have htrv : t.reverseOvercurrentThreshold = s.reverseOvercurrentThreshold := rfl
  have hth : t.hysteresis = s.hysteresis := rfl
  split
  · exact ⟨rfl, hts⟩
  · rcases hl : s.state with _ | _ | _
    · have hc1 : ¬(t.overcurrentThreshold ≤ t.averagedCurrent) := by
        rw [htov]; exact not_le.mpr hhi
      have hc2 : ¬(t.averagedCurrent ≤ t.reverseOvercurrentThreshold) := by
        rw [htrv]
        exact not_le.mpr (lt_of_le_of_lt hcfg hlo)
      simp only [hts, hl]
      rw [if_neg hc1, if_neg hc2]
      simp [hl]
    · have hc : ¬(t.averagedCurrent ≤ t.overcurrentThreshold - t.hysteresis) := by
        rw [htov, hth]; exact not_le.mpr hlo
      simp only [hts, hl]
      rw [if_neg hc]
      simp [hl]
    · exact absurd hl hst

theorem current_noChatter (xs : List Nat) (s : CurrentState)
    (hst : s.state ≠ MoaCurrentState.reverseOvercurrent)
    (hcfg : s.reverseOvercurrentThreshold ≤ s.overcurrentThreshold - s.hysteresis)
    (hband : ∀ a ∈ MoaCurrentControl.avgTrace s xs,
      s.overcurrentThreshold - s.hysteresis < a ∧ a < s.overcurrentThreshold) :
    (MoaCurrentControl.run s xs).2 = [] ∧
    (MoaCurrentControl.run s xs).1.state = s.state := by
  induction xs generalizing s with
  | nil => exact ⟨rfl, rfl⟩
  | cons x rest ih =>
      have hmem : (MoaCurrentControl.update s x).1.averagedCurrent
          ∈ MoaCurrentControl.avgTrace s (x :: rest) := by
        rw [current_avgTrace_cons]
        exact List.mem_cons_self _ _
      obtain ⟨hb1, hb2⟩ := hband _ hmem
      obtain ⟨hnone, hstp⟩ := current_noChatter_step s x hst hcfg hb1 hb2
      obtain ⟨hf1, hf2, hf3⟩ := current_update_fields s x
      have hih := ih (MoaCurrentControl.update s x).1
        (by rw [hstp]; exact hst)
        (by rw [hf1, hf2, hf3]; exact hcfg)
        (by intro a ha
            have : a ∈ MoaCurrentControl.avgTrace s (x :: rest) := by
              rw [current_avgTrace_cons]
              exact List.mem_cons_of_mem _ ha
            obtain ⟨u1, u2⟩ := hband a this
            rw [hf1, hf3]
            exact ⟨u1, u2⟩)
      obtain ⟨hr1, hr2⟩ := hih
      rw [current_run_cons]
      refine ⟨?_, hr2.trans hstp⟩
      rw [hnone, hr1]
      rfl

/-- C7 counterexample: the temperature detector's real band is one-sided. With
target 60 and hysteresis 2 the averaged values 59.5 and 60.5 both lie strictly
inside (target - hysteresis/2, target + hysteresis/2) = (59, 61), yet the run
emits one zone-change event, because the up-edge sits at the target itself. -/
theorem c7_half_band_oscillation_chatters :
    tempWitnessState.targetTemp - tempWitnessState.hysteresis / 2 < 119/2 ∧
    (119 : ℚ)/2 < tempWitnessState.targetTemp + tempWitnessState.hysteresis / 2 ∧
    tempWitnessState.targetTemp - tempWitnessState.hysteresis / 2 < 121/2 ∧
    (121 : ℚ)/2 < tempWitnessState.targetTemp + tempWitnessState.hysteresis / 2 ∧
    MoaTempControl.avgTrace tempWitnessState [119/2, 121/2] = [119/2, 121/2] ∧
    (MoaTempControl.run tempWitnessState [119/2, 121/2]).2.length = 1 := by
  refine ⟨by norm_num [tempWitnessState], by norm_num [tempWitnessState],
          by norm_num [tempWitnessState], by norm_num [tempWitnessState], ?_, ?_⟩ <;>
    norm_num [MoaTempControl.avgTrace, MoaTempControl.run, MoaTempControl.update,
      MoaTempControl.addSample, MoaTempControl.calculateAverage,
      MoaTempControl.isAveragingReady, tempWitnessState, DEVICE_DISCONNECTED_C]

/-- C7 (amended): no-chatter holds for the detectors' actual one-sided bands.
If every averaged value stays strictly inside the dead band next to the active
edge - battery (lowThreshold, lowThreshold + hysteresis) while not in HIGH,
temperature (target - hysteresis, target) in either zone, current
(overcurrentThreshold - hysteresis, overcurrentThreshold) while not in
reverse-overcurrent - then no detector emits any zone-change event and the
zone is preserved. -/
theorem c7_one_sided_bands_no_chatter
    (bs : BattState) (bxs : List Nat)
    (hblev : bs.level ≠ MoaBattLevel.battHigh)
    (hbcfg : bs.lowThreshold + bs.hysteresis ≤ bs.highThreshold)
    (hbband : ∀ a ∈ MoaBattControl.avgTrace bs bxs,
      bs.lowThreshold < a ∧ a < bs.lowThreshold + bs.hysteresis)
    (ts : TempState) (txs : List ℚ)
    (htband : ∀ a ∈ MoaTempControl.avgTrace ts txs,
      ts.targetTemp - ts.hysteresis < a ∧ a < ts.targetTemp)
    (cs : CurrentState) (cxs : List Nat)
    (hcst : cs.state ≠ MoaCurrentState.reverseOvercurrent)
    (hccfg : cs.reverseOvercurrentThreshold ≤ cs.overcurrentThreshold - cs.hysteresis)
    (hcband : ∀ a ∈ MoaCurrentControl.avgTrace cs cxs,
      cs.overcurrentThreshold - cs.hysteresis < a ∧ a < cs.overcurrentThreshold) :
    ((MoaBattControl.run bs bxs).2 = [] ∧
      (MoaBattControl.run bs bxs).1.level = bs.level) ∧
    ((MoaTempControl.run ts txs).2 = [] ∧
      (MoaTempControl.run ts txs).1.state = ts.state) ∧
    ((MoaCurrentControl.run cs cxs).2 = [] ∧
      (MoaCurrentControl.run cs cxs).1.state = cs.state) :=
  ⟨batt_noChatter bxs bs hblev hbcfg hbband,
   temp_noChatter txs ts htband,
   current_noChatter cxs cs hcst hccfg hcband⟩

theorem c7_one_sided_bands_no_chatter_witness :
    ((MoaBattControl.run (MoaBattControl.construct 1) [4100]).2 = [] ∧
      (MoaBattControl.run (MoaBattControl.construct 1) [4100]).1.level
        = (MoaBattControl.construct 1).level) ∧
    ((MoaTempControl.run tempWitnessState [59]).2 = [] ∧
      (MoaTempControl.run tempWitnessState [59]).1.state = tempWitnessState.state) ∧
    ((MoaCurrentControl.run currentWitnessState [2000]).2 = [] ∧
      (MoaCurrentControl.run currentWitnessState [2000]).1.state
        = currentWitnessState.state) :=
  c7_one_sided_bands_no_chatter
    (MoaBattControl.construct 1) [4100]
    (by norm_num [MoaBattControl.construct, MoaBattControl.setNumSamples]; decide)
    (by norm_num [MoaBattControl.construct, MoaBattControl.setNumSamples])
    (by intro a ha
        norm_num [MoaBattControl.avgTrace, MoaBattControl.update,
          MoaBattControl.addSample, MoaBattControl.calculateAverage,
          MoaBattControl.isAveragingReady, MoaBattControl.adcToVoltage,
          MoaBattControl.construct, MoaBattControl.setNumSamples] at ha
        subst ha
        norm_num [MoaBattControl.construct, MoaBattControl.setNumSamples])
    tempWitnessState [59]
    (by intro a ha
        norm_num [MoaTempControl.avgTrace, MoaTempControl.update,
          MoaTempControl.addSample, MoaTempControl.calculateAverage,
          MoaTempControl.isAveragingReady, tempWitnessState,
          DEVICE_DISCONNECTED_C] at ha
        subst ha
        norm_num [tempWitnessState])
    currentWitnessState [2000]
    (by norm_num [currentWitnessState]; decide)
    (by norm_num [currentWitnessState])
    (by intro a ha
        norm_num [MoaCurrentControl.avgTrace, MoaCurrentControl.update,
          MoaCurrentControl.addSample, MoaCurrentControl.calculateAverage,
          MoaCurrentControl.isAveragingReady, currentWitnessState] at ha
        subst ha
        norm_num [currentWitnessState])

theorem btn_held_step (cfg : BtnCfg) (hen : cfg.longPressEnabled = true)
    (b : BtnState) (hp : b.isPressed = true) (st : BtnStep)
    (hh : BtnStep.held st = true) :
    (MoaButtonControl.step cfg b st).1.isPressed = true ∧
    (MoaButtonControl.step cfg b st).1.pressStartTime = b.pressStartTime ∧
    ((MoaButtonControl.step cfg b st).1.longPressFired
      = (b.longPressFired || BtnStep.canFireLP cfg b.pressStartTime st)) ∧
    ((MoaButtonControl.step cfg b st).2
      = if b.longPressFired = false ∧ BtnStep.canFireLP cfg b.pressStartTime st = true
        then [ButtonEventType.longPress] else []) := by
  cases st with
  | poll raw now =>
      have hr : raw = true := hh
      subst hr
      by_cases hc : cfg.longPressMs ≤ u32sub now b.pressStartTime <;>
        cases hf : b.longPressFired <;>
          simp [MoaButtonControl.step, MoaButtonControl.processButton, hp, hen, hf, hc,
            BtnStep.canFireLP]
  | checkLP now =>
      by_cases hc : cfg.longPressMs ≤ u32sub now b.pressStartTime <;>
        cases hf : b.longPressFired <;>
          simp [MoaButtonControl.step, MoaButtonControl.checkLongPress, hp, hen, hf, hc,
            BtnStep.canFireLP]
  | intr raw now =>
      have hr : raw = true := hh
      subst hr
      simp [MoaButtonControl.step, MoaButtonControl.processInterrupt, hp,
        BtnStep.canFireLP]

theorem btn_runSteps_cons (cfg : BtnCfg) (b : BtnState) (st : BtnStep)
    (rest : List BtnStep) :
    MoaButtonControl.runSteps cfg b (st :: rest)
      = ((MoaButtonControl.runSteps cfg (MoaButtonControl.step cfg b st).1 rest).1,
         (MoaButtonControl.step cfg b st).2 ++
           (MoaButtonControl.runSteps cfg (MoaButtonControl.step cfg b st).1 rest).2) := rfl

theorem btn_held_run (cfg : BtnCfg) (hen : cfg.longPressEnabled = true)
    (steps : List BtnStep) (hheld : ∀ st ∈ steps, BtnStep.held st = true)
    (b : BtnState) (hp : b.isPressed = true) :
    (MoaButtonControl.runSteps cfg b steps).1.isPressed = true ∧
    (MoaButtonControl.runSteps cfg b steps).2.count ButtonEventType.press = 0 ∧
    (MoaButtonControl.runSteps cfg b steps).2.count ButtonEventType.veryLongPress = 0 ∧
    (MoaButtonControl.runSteps cfg b steps).2.count ButtonEventType.release = 0 ∧
    ((MoaButtonControl.runSteps cfg b steps).2.count ButtonEventType.longPress
      = if b.longPressFired = false ∧
            steps.any (BtnStep.canFireLP cfg b.pressStartTime) = true
        then 1 else 0) := by
  induction steps generalizing b with
  | nil =>
      refine ⟨hp, by simp [MoaButtonControl.runSteps], by simp [MoaButtonControl.runSteps],
        by simp [MoaButtonControl.runSteps], ?_⟩
      simp [MoaButtonControl.runSteps]
  | cons st rest ih =>
      obtain ⟨hs1, hs2, hs3, hs4⟩ :=
        btn_held_step cfg hen b hp st (hheld st (List.mem_cons_self _ _))
      obtain ⟨hi1, hi2, hi3, hi4, hi5⟩ :=
        ih (fun u hu => hheld u (List.mem_cons_of_mem _ hu))
          (MoaButtonControl.step cfg b st).1 hs1
      rw [btn_runSteps_cons]
      refine ⟨hi1, ?_, ?_, ?_, ?_⟩
      · rw [List.count_append, hi2, hs4]
        split <;> simp
      · rw [List.count_append, hi3, hs4]
        split <;> simp
      · rw [List.count_append, hi4, hs4]
        split <;> simp
      · rw [List.count_append, hi5, hs2, hs3, hs4]
        cases hf : b.longPressFired <;>
          cases hcf : BtnStep.canFireLP cfg b.pressStartTime st <;>
            simp [List.any_cons, hcf, hf]

/-- C3 counterexample: a button held from t=100 past the default very-long-press
duration (10000 ms) up to t=20000 produces only PRESS and LONG_PRESS; no code
path emits VERY_LONG_PRESS. -/
theorem c3_very_long_press_never_emitted :
    MOA_BUTTON_DEFAULT_VERY_LONG_PRESS_MS ≤ u32sub 20000 100 ∧
    (MoaButtonControl.runSteps btnCfgWitness btnInitial
        [BtnStep.poll true 100, BtnStep.poll true 5200, BtnStep.poll true 20000]).2
      = [ButtonEventType.press, ButtonEventType.longPress] ∧
    (MoaButtonControl.runSteps btnCfgWitness btnInitial
        [BtnStep.poll true 100, BtnStep.poll true 5200,
          BtnStep.poll true 20000]).1.isPressed = true := by
  refine ⟨by decide, by decide, by decide⟩

/-- C3 (amended): a press registered by a debounced poll and then held through
any mixture of polls, long-press checks and interrupt drains yields exactly one
PRESS event, exactly one LONG_PRESS event once some held step reaches the
long-press duration, and never a VERY_LONG_PRESS or RELEASE event. -/
theorem c3_single_press_single_long_no_very_long
    (cfg : BtnCfg) (hen : cfg.longPressEnabled = true)
    (t0 : Nat) (hdeb : cfg.debounceMs ≤ t0) (ht0 : t0 < 4294967296)
    (rest : List BtnStep) (hheld : ∀ st ∈ rest, BtnStep.held st = true)
    (hfire : rest.any (BtnStep.canFireLP cfg t0) = true) :
    (MoaButtonControl.runSteps cfg btnInitial
        (BtnStep.poll true t0 :: rest)).2.count ButtonEventType.press = 1 ∧
    (MoaButtonControl.runSteps cfg btnInitial
        (BtnStep.poll true t0 :: rest)).2.count ButtonEventType.longPress = 1 ∧
    (MoaButtonControl.runSteps cfg btnInitial
        (BtnStep.poll true t0 :: rest)).2.count ButtonEventType.veryLongPress = 0 ∧
    (MoaButtonControl.runSteps cfg btnInitial
        (BtnStep.poll true t0 :: rest)).2.count ButtonEventType.release = 0 := by
  rw [btn_runSteps_cons]
  have hu : u32sub t0 0 = t0 := by
    unfold u32sub
    omega
  have hstep : MoaButtonControl.step cfg btnInitial (BtnStep.poll true t0)
      = ({ lastChangeTime := t0, pressStartTime := t0, isPressed := true,
           longPressFired := false }, [ButtonEventType.press]) := by
    simp [MoaButtonControl.step, MoaButtonControl.processButton, btnInitial, hu, hdeb]
  rw [hstep]
  obtain ⟨h1, h2, h3, h4, h5⟩ := btn_held_run cfg hen rest hheld
    { lastChangeTime := t0, pressStartTime := t0, isPressed := true,
      longPressFired := false } rfl
  refine ⟨?_, ?_, ?_, ?_⟩ <;>
    simp [List.count_append, List.count_cons, h2, h3, h4, h5, hfire]

theorem c3_single_press_single_long_no_very_long_witness :
    (MoaButtonControl.runSteps btnCfgWitness btnInitial
        [BtnStep.poll true 100, BtnStep.poll true 5200]).2.count
        ButtonEventType.press = 1 ∧
    (MoaButtonControl.runSteps btnCfgWitness btnInitial
        [BtnStep.poll true 100, BtnStep.poll true 5200]).2.count
        ButtonEventType.longPress = 1 ∧
    (MoaButtonControl.runSteps btnCfgWitness btnInitial
        [BtnStep.poll true 100, BtnStep.poll true 5200]).2.count
        ButtonEventType.veryLongPress = 0 ∧
    (MoaButtonControl.runSteps btnCfgWitness btnInitial
        [BtnStep.poll true 100, BtnStep.poll true 5200]).2.count
        ButtonEventType.release = 0 :=
  c3_single_press_single_long_no_very_long btnCfgWitness rfl 100 (by decide)
    (by decide) [BtnStep.poll true 5200] (by decide) (by decide)
